import Mathlib

/-!
# Stepper motor driver (`servo.c`): shallow embedding and checked properties

The driver keeps one `struct servo` per device.  Its position and mode are
changed by the periodic timer callback `servo_update` and by the two command
entry points `servo_write_handler` (character device write) and
`servo_callib_store` (sysfs attribute); `servo_read_handler` formats the
current position for a reader.

Conventions of the embedding:

* `unsigned` fields are `Nat` values reduced modulo `2 ^ 32`, the `int` field
  `led_active_idx` is an `Int` reduced to the 32-bit two's complement range.
  The usual arithmetic conversions of C are written out (`to_unsigned`,
  `to_int`, `int_wrap`).
* Every handler is a function from the device state (and its inputs) to the
  new device state (and its outputs).
* Kernel services the driver calls (`kstrtol`, `snprintf`, the GPIO value
  accessors) are modelled by small functions next to their callers.
-/

namespace Servo

/-! ## Machine integers -/

/-- Conversion of a signed value to `unsigned int` (reduction modulo `2 ^ 32`). -/
def to_unsigned (x : Int) : Nat := (x % 4294967296).toNat

/-- Conversion of an unsigned value to `int` (32-bit two's complement). -/
def to_int (u : Nat) : Int :=
  if u % 4294967296 < 2147483648 then ((u % 4294967296 : Nat) : Int)
  else ((u % 4294967296 : Nat) : Int) - 4294967296

/-- Result of an `int` computation, wrapped to 32 bits (the kernel is built
with wrapping signed arithmetic). -/
def int_wrap (x : Int) : Int := to_int (to_unsigned x)

/-- Conversion of a `size_t` value to `ssize_t` (64-bit two's complement). -/
def to_ssize (n : Nat) : Int :=
  if n % 18446744073709551616 < 9223372036854775808 then ((n % 18446744073709551616 : Nat) : Int)
  else ((n % 18446744073709551616 : Nat) : Int) - 18446744073709551616

/-- Kernel errno value `EINVAL`. -/
def EINVAL : Int := 22

/-- Kernel errno value `ERANGE`. -/
def ERANGE : Int := 34

/-- Kernel errno value `EMSGSIZE`. -/
def EMSGSIZE : Int := 90

/-! ## Data model -/

/-- Mode of the device: `enum state {IDLE, CALLIB, IN_PROGRESS}`. -/
inductive state where
  | IDLE
  | CALLIB
  | IN_PROGRESS
deriving DecidableEq

/-- Position record: `struct servo_state`. -/
structure servo_state where
  curr_pos : Nat
  dest_pos : Nat
  state : state
deriving DecidableEq

/-- The coil lines: the kernel's `struct gpio_descs`, with its `unsigned int
ndescs` counter and, for each descriptor of `desc[]`, the value last driven
on that output line.  An array handed out by `devm_gpiod_get_array` has at
least one line, so `ndescs` is never zero when the driver divides by it. -/
structure gpio_descs where
  ndescs : Nat
  desc : List Nat
deriving DecidableEq

/-- Device record: the fields of `struct servo` the handlers read or write. -/
structure servo where
  leds : gpio_descs
  led_active_idx : Int
  servo_state : servo_state
deriving DecidableEq

/-! ## Coil outputs and the timer callback -/

/-- Function `led_on(leds, led_idx)`: an index outside `[0, ndescs)` is
rejected; otherwise the loop drives every line, 1 on line `led_idx` and 0 on
the others (`gpiod_set_value(leds->desc[leds_ctr], ...)`). -/
def led_on (leds : gpio_descs) (led_idx : Int) : gpio_descs :=
  if led_idx < 0 ∨ to_unsigned led_idx ≥ leds.ndescs then leds
  else
    { leds with
      desc := (List.range leds.ndescs).foldl
        (fun (desc : List Nat) (leds_ctr : Nat) =>
          if (leds_ctr : Int) = led_idx then desc.set leds_ctr 1 else desc.set leds_ctr 0)
        leds.desc }

/-- Expression `(servo->led_active_idx + 1) % servo->leds->ndescs` as stored
back into the `int` field: the sum is an `int`, converted to `unsigned` for
the remainder by the unsigned `ndescs`. -/
def step_forward (led_active_idx : Int) (ndescs : Nat) : Int :=
  to_int (to_unsigned (int_wrap (led_active_idx + 1)) % ndescs)

/-- Expression `(servo->led_active_idx - 1) % servo->leds->ndescs` as stored
back into the `int` field: the difference is an `int`, converted to
`unsigned` for the remainder by the unsigned `ndescs`. -/
def step_backward (led_active_idx : Int) (ndescs : Nat) : Int :=
  to_int (to_unsigned (int_wrap (led_active_idx - 1)) % ndescs)

/-- Timer callback `servo_update`; `detector` is the truth value of
`gpiod_get_value(servo->detector)` on this tick.  The `IN_PROGRESS` case
falls through into `IDLE`, whose body is empty.  Re-arming the timer does
not touch the device record. -/
def servo_update (s : servo) (detector : Bool) : servo :=
  match s.servo_state.state with
  | state.CALLIB =>
    if detector then
      let idx := step_forward s.led_active_idx s.leds.ndescs
      { s with led_active_idx := idx, leds := led_on s.leds idx }
    else
      { s with servo_state := { s.servo_state with state := state.IDLE, curr_pos := 0, dest_pos := 0 } }
  | state.IN_PROGRESS =>
    if s.servo_state.curr_pos > s.servo_state.dest_pos then
      let idx := step_backward s.led_active_idx s.leds.ndescs
      { s with
        led_active_idx := idx
        leds := led_on s.leds idx
        servo_state := { s.servo_state with curr_pos := (s.servo_state.curr_pos + 4294967295) % 4294967296 } }
    else if s.servo_state.curr_pos < s.servo_state.dest_pos then
      let idx := step_forward s.led_active_idx s.leds.ndescs
      { s with
        led_active_idx := idx
        leds := led_on s.leds idx
        servo_state := { s.servo_state with curr_pos := (s.servo_state.curr_pos + 1) % 4294967296 } }
    else
      { s with servo_state := { s.servo_state with state := state.IDLE } }
  | state.IDLE => s

/-- Successive timer ticks with no command in between; the list gives the
detector reading of each tick, first tick first. -/
def servo_ticks (s : servo) (detector : List Bool) : servo :=
  detector.foldl servo_update s

/-! ## Command entry points -/

/-- Sysfs store `servo_callib_store`: the written text is not looked at;
`count` is its length, returned as `ssize_t`. -/
def servo_callib_store (s : servo) (count : Nat) : Int × servo :=
  if s.servo_state.state = state.IDLE then
    (to_ssize count, { s with servo_state := { s.servo_state with state := state.CALLIB } })
  else
    (to_ssize count, s)

/-- The terminating byte of a C string. -/
def NUL : Char := Char.ofNat 0

/-- Kernel helper `_parse_integer` for base 10: reads the leading decimal
digits of `s` and gives the accumulated value, the number of digits read
and the unread rest of the string. -/
def parse_integer : List Char → Nat → Nat → Nat × Nat × List Char
  | [], res, rv => (res, rv, [])
  | c :: cs, res, rv =>
    if 48 ≤ c.toNat ∧ c.toNat ≤ 57 then
      parse_integer cs (res * 10 + (c.toNat - 48)) (rv + 1)
    else (res, rv, c :: cs)

/-- Kernel helper `_kstrtoull` for base 10: at least one digit, a value
below `2 ^ 64`, then at most one newline, then the end of the string (the
end of the list counts as the terminating NUL). -/
def kstrtoull_digits (s : List Char) : Except Int Nat :=
  match parse_integer s 0 0 with
  | (res, rv, rest) =>
    if res ≥ 18446744073709551616 then Except.error (-ERANGE)
    else if rv = 0 then Except.error (-EINVAL)
    else
      let rest1 := match rest with
        | c :: r => if c = Char.ofNat 10 then r else c :: r
        | [] => []
      match rest1 with
      | [] => Except.ok res
      | c :: _ => if c = NUL then Except.ok res else Except.error (-EINVAL)

/-- Kernel routine `kstrtol(s, 10, &res)` on a 64-bit `long` (lib/kstrtox.c,
not part of the driver): an optional sign (`-`, or one `+`), decimal
digits, an optional final newline.  `Except.ok v` stands for return value 0
with `*res = v`, `Except.error e` for the non-zero return value `e`. -/
def kstrtol (s : List Char) : Except Int Int :=
  match s with
  | c :: t =>
    if c = Char.ofNat 45 then
      match kstrtoull_digits t with
      | Except.error e => Except.error e
      | Except.ok tmp =>
        if tmp > 9223372036854775808 then Except.error (-ERANGE) else Except.ok (-(tmp : Int))
    else
      match kstrtoull_digits (if c = Char.ofNat 43 then t else c :: t) with
      | Except.error e => Except.error e
      | Except.ok tmp =>
        if tmp ≥ 9223372036854775808 then Except.error (-ERANGE) else Except.ok (tmp : Int)
  | [] => Except.error (-EINVAL)

/-- Character device write `servo_write_handler`; `data` holds the
`data_len` bytes of the caller's payload.  After the size check the bytes are
copied to `private_buffer` and a NUL is stored at index `data_len`, which
ends the string `kstrtol` reads.  The result pairs the `ssize_t` return value
with the device state after the call. -/
def servo_write_handler (s : servo) (data : List Char) : Int × servo :=
  let data_len := data.length
  if data_len > 10 then (-EMSGSIZE, s)
  else
    let private_buffer := data ++ [NUL]
    match kstrtol private_buffer with
    | Except.error _ => (-EINVAL, s)
    | Except.ok received_value =>
      if s.servo_state.state ≠ state.CALLIB ∧ s.servo_state.state ≠ state.IN_PROGRESS then
        (to_ssize data_len,
          { s with servo_state :=
              { s.servo_state with dest_pos := to_unsigned received_value, state := state.IN_PROGRESS } })
      else (to_ssize data_len, s)

/-- Decimal digits of `n`, most significant first, put in front of `acc`;
`fuel` bounds the number of digits. -/
def put_dec : Nat → Nat → List Char → List Char
  | 0, _, acc => acc
  | fuel + 1, n, acc =>
    if n < 10 then Char.ofNat (48 + n) :: acc
    else put_dec fuel (n / 10) (Char.ofNat (48 + n % 10) :: acc)

/-- Text produced by the format `"%d\n"` for the `int` argument `x`. -/
def format_d_newline (x : Int) : List Char :=
  (if x < 0 then Char.ofNat 45 :: put_dec 20 x.natAbs [] else put_dec 20 x.toNat [])
    ++ [Char.ofNat 10]

/-- Character device read `servo_read_handler`.  `snprintf(private_buffer,
10, "%d\n", curr_pos)` reads the `unsigned` position as an `int`, stores at
most 9 characters of the text and a NUL, and returns the length of the
whole text; `copy_to_user` then delivers `data_len` bytes starting at
`private_buffer`.  `stack i` is the byte found at offset `i` from
`private_buffer` where `snprintf` stored nothing.  The result is the return
value, the bytes delivered and the device state after the call. -/
def servo_read_handler (s : servo) (stack : Nat → Char) : Int × List Char × servo :=
  let text := format_d_newline (to_int s.servo_state.curr_pos)
  let data_len := text.length
  let stored := text.take 9
  let private_buffer : Nat → Char := fun i =>
    if i < stored.length then stored.getD i NUL
    else if i = stored.length then NUL
    else stack i
  ((data_len : Int), (List.range data_len).map private_buffer, s)

/-- A device with `n` coil lines of which line `idx` is driven, in the given
mode and positions; used to evaluate the handlers on concrete devices. -/
def servo_with (n : Nat) (idx : Int) (st : state) (curr_pos dest_pos : Nat) : servo :=
  { leds :=
      { ndescs := n
        desc := (List.range n).map (fun (i : Nat) => if (i : Int) = idx then 1 else 0) }
    led_active_idx := idx
    servo_state := { curr_pos := curr_pos, dest_pos := dest_pos, state := st } }

/-- Arguments of the `led_on` calls one run of `servo_update` makes, in call
order: each stepping branch assigns `led_active_idx` and passes the new value
to `led_on`; the other branches do not call it. -/
def servo_update_led_on_calls (s : servo) (detector : Bool) : List Int :=
  match s.servo_state.state with
  | state.CALLIB =>
    if detector then [step_forward s.led_active_idx s.leds.ndescs] else []
  | state.IN_PROGRESS =>
    if s.servo_state.curr_pos > s.servo_state.dest_pos then
      [step_backward s.led_active_idx s.leds.ndescs]
    else if s.servo_state.curr_pos < s.servo_state.dest_pos then
      [step_forward s.led_active_idx s.leds.ndescs]
    else []
  | state.IDLE => []

/-- Indices of `private_buffer` that `servo_write_handler` stores to for a
payload of `data_len` bytes: none when the size check rejects the payload,
otherwise the `data_len` bytes of `copy_from_user` and then the NUL of
`private_buffer[data_len] = 0`. -/
def servo_write_handler_stores (data_len : Nat) : List Nat :=
  if data_len > 10 then [] else List.range data_len ++ [data_len]

/-- Device record at the end of `servo_probe` for an array of `n` coil lines:
the lines are requested low (`GPIOD_OUT_LOW`), the zeroed allocation leaves
both positions 0, then `led_active_idx = 0`, `led_on(servo->leds, 0)` and
mode CALLIB. -/
def servo_probe (n : Nat) : servo :=
  { leds := led_on { ndescs := n, desc := List.replicate n 0 } 0
    led_active_idx := 0
    servo_state := { curr_pos := 0, dest_pos := 0, state := state.CALLIB } }

/-- One event on the device: a timer tick with its detector reading, a write
of a payload to the character device, or a store of `count` bytes to the
`callib` attribute. -/
inductive servo_op where
  | tick (detector : Bool)
  | write (data : List Char)
  | callib (count : Nat)

/-- Device state after one event (return values of the handlers dropped). -/
def servo_apply (s : servo) (op : servo_op) : servo :=
  match op with
  | servo_op.tick detector => servo_update s detector
  | servo_op.write data => (servo_write_handler s data).2
  | servo_op.callib count => (servo_callib_store s count).2

/-- Device state after a sequence of events, handled one after the other,
first event first. -/
def servo_run (s : servo) (ops : List servo_op) : servo :=
  ops.foldl servo_apply s

/-! ## Machine integer facts -/

theorem to_unsigned_natCast (n : Nat) (h : n < 4294967296) : to_unsigned (n : Int) = n := by
  unfold to_unsigned
  omega

theorem to_int_of_lt (u : Nat) (h : u < 2147483648) : to_int u = (u : Int) := by
  unfold to_int
  split <;> omega

theorem to_unsigned_to_int (u : Nat) (h : u < 4294967296) : to_unsigned (to_int u) = u := by
  unfold to_unsigned to_int
  split <;> omega

theorem to_unsigned_int_wrap (x : Int) : to_unsigned (int_wrap x) = to_unsigned x := by
  unfold int_wrap to_unsigned to_int
  split <;> omega

theorem to_ssize_of_lt (n : Nat) (h : n < 9223372036854775808) : to_ssize n = (n : Int) := by
  unfold to_ssize
  split <;> omega

/-- The forward step on the `int` image of an index `c < n` is the `int`
image of `(c + 1) % n`, for every `unsigned` coil count `n`. -/
theorem step_forward_to_int (c n : Nat) (hc : c < n) (hn : n < 4294967296) :
    step_forward (to_int c) n = to_int ((c + 1) % n) := by
  unfold step_forward
  rw [to_unsigned_int_wrap]
  have h1 : to_unsigned (to_int c + 1) = c + 1 := by
    unfold to_unsigned to_int
    split <;> omega
  rw [h1]

/-- The backward step on the `int` image of an index `c` with `1 ≤ c < n`
is the `int` image of `c - 1`. -/
theorem step_backward_to_int (c n : Nat) (hc : c < n) (hc1 : 1 ≤ c) (hn : n < 4294967296) :
    step_backward (to_int c) n = to_int (c - 1) := by
  unfold step_backward
  rw [to_unsigned_int_wrap]
  have h1 : to_unsigned (to_int c - 1) = c - 1 := by
    unfold to_unsigned to_int
    split <;> omega
  rw [h1, Nat.mod_eq_of_lt (by omega)]

/-! ## One tick, case by case -/

theorem led_on_ndescs (leds : gpio_descs) (led_idx : Int) :
    (led_on leds led_idx).ndescs = leds.ndescs := by
  unfold led_on
  split <;> rfl

theorem servo_update_idle (s : servo) (d : Bool) (h : s.servo_state.state = state.IDLE) :
    servo_update s d = s := by
  unfold servo_update
  rw [h]

theorem servo_update_callib_true (s : servo) (h : s.servo_state.state = state.CALLIB) :
    servo_update s true =
      { s with
        led_active_idx := step_forward s.led_active_idx s.leds.ndescs
        leds := led_on s.leds (step_forward s.led_active_idx s.leds.ndescs) } := by
  unfold servo_update
  rw [h]
  rfl

theorem servo_update_callib_false (s : servo) (h : s.servo_state.state = state.CALLIB) :
    servo_update s false =
      { s with servo_state := { curr_pos := 0, dest_pos := 0, state := state.IDLE } } := by
  unfold servo_update
  rw [h]
  rfl

theorem servo_update_seek_back (s : servo) (d : Bool)
    (h : s.servo_state.state = state.IN_PROGRESS)
    (hgt : s.servo_state.curr_pos > s.servo_state.dest_pos) :
    servo_update s d =
      { leds := led_on s.leds (step_backward s.led_active_idx s.leds.ndescs)
        led_active_idx := step_backward s.led_active_idx s.leds.ndescs
        servo_state :=
          { curr_pos := (s.servo_state.curr_pos + 4294967295) % 4294967296
            dest_pos := s.servo_state.dest_pos
            state := state.IN_PROGRESS } } := by
  unfold servo_update
  rw [h]
  simp only [hgt, if_true]
  rw [← h]

theorem servo_update_seek_forth (s : servo) (d : Bool)
    (h : s.servo_state.state = state.IN_PROGRESS)
    (hlt : s.servo_state.curr_pos < s.servo_state.dest_pos) :
    servo_update s d =
      { leds := led_on s.leds (step_forward s.led_active_idx s.leds.ndescs)
        led_active_idx := step_forward s.led_active_idx s.leds.ndescs
        servo_state :=
          { curr_pos := (s.servo_state.curr_pos + 1) % 4294967296
            dest_pos := s.servo_state.dest_pos
            state := state.IN_PROGRESS } } := by
  unfold servo_update
  rw [h]
  have hng : ¬ s.servo_state.curr_pos > s.servo_state.dest_pos := by omega
  simp only [hng, hlt, if_true, if_false]
  rw [← h]

theorem servo_update_seek_done (s : servo) (d : Bool)
    (h : s.servo_state.state = state.IN_PROGRESS)
    (heq : s.servo_state.curr_pos = s.servo_state.dest_pos) :
    servo_update s d =
      { s with servo_state := { s.servo_state with state := state.IDLE } } := by
  unfold servo_update
  rw [h]
  have hng : ¬ s.servo_state.curr_pos > s.servo_state.dest_pos := by omega
  have hnl : ¬ s.servo_state.curr_pos < s.servo_state.dest_pos := by omega
  simp only [hng, hnl, if_false]

theorem servo_ticks_nil (s : servo) : servo_ticks s [] = s := rfl

theorem servo_ticks_cons (s : servo) (d : Bool) (ds : List Bool) :
    servo_ticks s (d :: ds) = servo_ticks (servo_update s d) ds := rfl

theorem servo_ticks_append (s : servo) (ds es : List Bool) :
    servo_ticks s (ds ++ es) = servo_ticks (servo_ticks s ds) es := by
  unfold servo_ticks
  rw [List.foldl_append]

theorem servo_ticks_idle (s : servo) (ds : List Bool) (h : s.servo_state.state = state.IDLE) :
    servo_ticks s ds = s := by
  induction ds with
  | nil => rfl
  | cons d ds ih => rw [servo_ticks_cons, servo_update_idle s d h, ih]

/-! ## Calibration -/

/-- While the detector reads true, calibration keeps the position record and
walks the coil index forward, one coil per tick. -/
theorem servo_ticks_callib (n : Nat) (hn32 : n < 4294967296) (k : Nat) :
    ∀ (s : servo) (c : Nat), c < n → s.leds.ndescs = n → s.led_active_idx = to_int c →
      s.servo_state.state = state.CALLIB →
      (servo_ticks s (List.replicate k true)).servo_state = s.servo_state
      ∧ (servo_ticks s (List.replicate k true)).leds.ndescs = n
      ∧ (servo_ticks s (List.replicate k true)).led_active_idx = to_int ((c + k) % n) := by
  induction k with
  | zero =>
    intro s c hc hnd hidx _
    refine ⟨rfl, hnd, ?_⟩
    rw [Nat.add_zero, Nat.mod_eq_of_lt hc]
    exact hidx
  | succ k ih =>
    intro s c hc hnd hidx hmode
    rw [List.replicate_succ, servo_ticks_cons, servo_update_callib_true s hmode]
    have hstep : step_forward s.led_active_idx s.leds.ndescs = to_int ((c + 1) % n) := by
      rw [hidx, hnd]
      exact step_forward_to_int c n hc hn32
    have hlt : (c + 1) % n < n := Nat.mod_lt _ (by omega)
    obtain ⟨h1, h2, h3⟩ := ih
      { s with
        led_active_idx := step_forward s.led_active_idx s.leds.ndescs
        leds := led_on s.leds (step_forward s.led_active_idx s.leds.ndescs) }
      ((c + 1) % n) hlt (by rw [led_on_ndescs]; exact hnd) hstep hmode
    refine ⟨h1, h2, ?_⟩
    rw [h3]
    congr 1
    rw [Nat.mod_add_mod]
    congr 1
    omega

/-- C1 (code defect): with 3 coils, the Backward step of `servo_update` (mode
IN_PROGRESS, curr_pos 1 above dest_pos 0) from led_active_idx 0 stores 0 again,
where (0 - 1) mod 3 under true modulo is 2: the `int` difference -1 is
converted to the `unsigned` value 4294967295 before the remainder by the
unsigned coil count is taken, and 4294967295 is a multiple of 3. -/
theorem backward_step_wraps_unsigned :
    (servo_update (servo_with 3 0 state.IN_PROGRESS 1 0) false).led_active_idx = 0
    ∧ ((0 - 1) % 3 : Int) = 2
    ∧ step_backward 0 3 = 0
    ∧ to_unsigned (int_wrap (0 - 1)) = 4294967295 := by
  decide

/-- C2: starting in CALLIB on a device with n coils (1 ≤ n, n an `unsigned`
count) whose active index is c in [0, n), with the detector true on the first
N ticks and false on tick N+1: the mode is CALLIB after each of the first N
ticks, and IDLE with curr_pos = dest_pos = 0 after tick N+1; after the N
forward ticks led_active_idx holds (c + N) mod n (as an `int`; the plain
value whenever the indices fit the `int` field, n ≤ 2^31), and the completing
tick changes neither led_active_idx nor any coil output. -/
theorem calibration_completes_after_detector_clears (s : servo) (N n c : Nat)
    (hn : 1 ≤ n) (hn32 : n < 4294967296) (hnd : s.leds.ndescs = n)
    (hc : c < n) (hidx : s.led_active_idx = to_int c)
    (hmode : s.servo_state.state = state.CALLIB) :
    (∀ k, k ≤ N → (servo_ticks s (List.replicate k true)).servo_state.state = state.CALLIB)
    ∧ (servo_ticks s (List.replicate N true ++ [false])).servo_state
        = { curr_pos := 0, dest_pos := 0, state := state.IDLE }
    ∧ (servo_ticks s (List.replicate N true)).led_active_idx = to_int ((c + N) % n)
    ∧ (n ≤ 2147483648 →
        s.led_active_idx = (c : Int)
        ∧ (servo_ticks s (List.replicate N true)).led_active_idx = (((c + N) % n : Nat) : Int))
    ∧ (servo_ticks s (List.replicate N true ++ [false])).led_active_idx
        = (servo_ticks s (List.replicate N true)).led_active_idx
    ∧ (servo_ticks s (List.replicate N true ++ [false])).leds
        = (servo_ticks s (List.replicate N true)).leds := by
  have hN := servo_ticks_callib n hn32 N s c hc hnd hidx hmode
  have hmodeN : (servo_ticks s (List.replicate N true)).servo_state.state = state.CALLIB := by
    rw [hN.1]; exact hmode
  have hlast : servo_ticks s (List.replicate N true ++ [false])
      = { servo_ticks s (List.replicate N true) with
          servo_state := { curr_pos := 0, dest_pos := 0, state := state.IDLE } } := by
    rw [servo_ticks_append, servo_ticks_cons, servo_ticks_nil,
      servo_update_callib_false _ hmodeN]
  refine ⟨?_, ?_, hN.2.2, ?_, ?_, ?_⟩
  · intro k _
    rw [(servo_ticks_callib n hn32 k s c hc hnd hidx hmode).1]
    exact hmode
  · rw [hlast]
  · intro hsmall
    have hlt : (c + N) % n < n := Nat.mod_lt _ (by omega)
    refine ⟨?_, ?_⟩
    · rw [hidx]; exact to_int_of_lt c (by omega)
    · rw [hN.2.2]; exact to_int_of_lt _ (by omega)
  · rw [hlast]
  · rw [hlast]

/-- Instance of C2: 4 coils, active index 3, detector true on two ticks and
then false: IDLE at position 0 after the third tick, the index having moved
from 3 to (3 + 2) mod 4 = 1 during the first two. -/
theorem calibration_completes_after_detector_clears_witness :
    (servo_ticks (servo_with 4 3 state.CALLIB 7 9) (List.replicate 2 true)).servo_state.state
        = state.CALLIB
    ∧ (servo_ticks (servo_with 4 3 state.CALLIB 7 9) (List.replicate 2 true ++ [false])).servo_state
        = { curr_pos := 0, dest_pos := 0, state := state.IDLE }
    ∧ (servo_ticks (servo_with 4 3 state.CALLIB 7 9) (List.replicate 2 true)).led_active_idx
        = (((3 + 2) % 4 : Nat) : Int)
    ∧ (servo_ticks (servo_with 4 3 state.CALLIB 7 9) (List.replicate 2 true ++ [false])).leds
        = (servo_ticks (servo_with 4 3 state.CALLIB 7 9) (List.replicate 2 true)).leds :=
  ⟨(calibration_completes_after_detector_clears (servo_with 4 3 state.CALLIB 7 9) 2 4 3
      (by decide) (by decide) rfl (by decide) (by decide) rfl).1 2 (by decide),
   (calibration_completes_after_detector_clears (servo_with 4 3 state.CALLIB 7 9) 2 4 3
      (by decide) (by decide) rfl (by decide) (by decide) rfl).2.1,
   ((calibration_completes_after_detector_clears (servo_with 4 3 state.CALLIB 7 9) 2 4 3
      (by decide) (by decide) rfl (by decide) (by decide) rfl).2.2.2.1 (by decide)).2,
   (calibration_completes_after_detector_clears (servo_with 4 3 state.CALLIB 7 9) 2 4 3
      (by decide) (by decide) rfl (by decide) (by decide) rfl).2.2.2.2.2⟩

/-! ## Seeking -/

/-- Backward tick with the decrement written without wrap-around, which is
what it amounts to for an `unsigned` position above the destination. -/
theorem servo_update_seek_back_pred (s : servo) (d : Bool)
    (h : s.servo_state.state = state.IN_PROGRESS)
    (hgt : s.servo_state.curr_pos > s.servo_state.dest_pos)
    (h32 : s.servo_state.curr_pos < 4294967296) :
    servo_update s d =
      { leds := led_on s.leds (step_backward s.led_active_idx s.leds.ndescs)
        led_active_idx := step_backward s.led_active_idx s.leds.ndescs
        servo_state :=
          { curr_pos := s.servo_state.curr_pos - 1
            dest_pos := s.servo_state.dest_pos
            state := state.IN_PROGRESS } } := by
  rw [servo_update_seek_back s d h hgt]
  have hc : (s.servo_state.curr_pos + 4294967295) % 4294967296 = s.servo_state.curr_pos - 1 := by
    omega
  rw [hc]

/-- Forward tick with the increment written without wrap-around, which is
what it amounts to for a position below an `unsigned` destination. -/
theorem servo_update_seek_forth_succ (s : servo) (d : Bool)
    (h : s.servo_state.state = state.IN_PROGRESS)
    (hlt : s.servo_state.curr_pos < s.servo_state.dest_pos)
    (h32 : s.servo_state.dest_pos < 4294967296) :
    servo_update s d =
      { leds := led_on s.leds (step_forward s.led_active_idx s.leds.ndescs)
        led_active_idx := step_forward s.led_active_idx s.leds.ndescs
        servo_state :=
          { curr_pos := s.servo_state.curr_pos + 1
            dest_pos := s.servo_state.dest_pos
            state := state.IN_PROGRESS } } := by
  rw [servo_update_seek_forth s d h hlt]
  have hc : (s.servo_state.curr_pos + 1) % 4294967296 = s.servo_state.curr_pos + 1 := by
    omega
  rw [hc]

/-- A seek toward a destination `g` units above the position: while no more
than `g` ticks have run the mode is IN_PROGRESS and the position has grown by
one per tick; after more than `g` ticks the mode is IDLE and the position is
the destination. -/
theorem servo_ticks_seek_forth (ds : List Bool) :
    ∀ (s : servo) (g : Nat), s.servo_state.state = state.IN_PROGRESS →
      s.servo_state.dest_pos = s.servo_state.curr_pos + g →
      s.servo_state.dest_pos < 4294967296 →
      (servo_ticks s ds).servo_state.dest_pos = s.servo_state.dest_pos
      ∧ (ds.length ≤ g →
          (servo_ticks s ds).servo_state.state = state.IN_PROGRESS
          ∧ (servo_ticks s ds).servo_state.curr_pos = s.servo_state.curr_pos + ds.length)
      ∧ (g < ds.length →
          (servo_ticks s ds).servo_state.state = state.IDLE
          ∧ (servo_ticks s ds).servo_state.curr_pos = s.servo_state.dest_pos) := by
  induction ds with
  | nil =>
    intro s g hmode _ _
    rw [servo_ticks_nil]
    refine ⟨rfl, fun _ => ⟨hmode, rfl⟩, fun h => ?_⟩
    simp at h
  | cons d ds ih =>
    intro s g hmode hgap hD
    rw [servo_ticks_cons, List.length_cons]
    cases g with
    | zero =>
      rw [servo_update_seek_done s d hmode (by omega), servo_ticks_idle _ ds rfl]
      refine ⟨rfl, fun h => ?_, fun _ => ⟨rfl, ?_⟩⟩
      · omega
      · show s.servo_state.curr_pos = s.servo_state.dest_pos
        omega
    | succ g =>
      rw [servo_update_seek_forth_succ s d hmode (by omega) hD]
      obtain ⟨h1, h2, h3⟩ := ih
        { leds := led_on s.leds (step_forward s.led_active_idx s.leds.ndescs)
          led_active_idx := step_forward s.led_active_idx s.leds.ndescs
          servo_state :=
            { curr_pos := s.servo_state.curr_pos + 1
              dest_pos := s.servo_state.dest_pos
              state := state.IN_PROGRESS } }
        g rfl
        (by show s.servo_state.dest_pos = s.servo_state.curr_pos + 1 + g; omega)
        hD
      refine ⟨h1, fun h => ?_, fun h => ?_⟩
      · obtain ⟨h4, h5⟩ := h2 (by omega)
        refine ⟨h4, ?_⟩
        rw [h5]
        show s.servo_state.curr_pos + 1 + ds.length = _
        omega
      · exact h3 (by omega)

/-- A seek toward a destination `g` units below the position: while no more
than `g` ticks have run the mode is IN_PROGRESS and the position has dropped
by one per tick; after more than `g` ticks the mode is IDLE and the position
is the destination. -/
theorem servo_ticks_seek_back (ds : List Bool) :
    ∀ (s : servo) (g : Nat), s.servo_state.state = state.IN_PROGRESS →
      s.servo_state.curr_pos = s.servo_state.dest_pos + g →
      s.servo_state.curr_pos < 4294967296 →
      (servo_ticks s ds).servo_state.dest_pos = s.servo_state.dest_pos
      ∧ (ds.length ≤ g →
          (servo_ticks s ds).servo_state.state = state.IN_PROGRESS
          ∧ (servo_ticks s ds).servo_state.curr_pos + ds.length = s.servo_state.curr_pos)
      ∧ (g < ds.length →
          (servo_ticks s ds).servo_state.state = state.IDLE
          ∧ (servo_ticks s ds).servo_state.curr_pos = s.servo_state.dest_pos) := by
  induction ds with
  | nil =>
    intro s g hmode _ _
    rw [servo_ticks_nil]
    refine ⟨rfl, fun _ => ⟨hmode, rfl⟩, fun h => ?_⟩
    simp at h
  | cons d ds ih =>
    intro s g hmode hgap hP
    rw [servo_ticks_cons, List.length_cons]
    cases g with
    | zero =>
      rw [servo_update_seek_done s d hmode (by omega), servo_ticks_idle _ ds rfl]
      refine ⟨rfl, fun h => ?_, fun _ => ⟨rfl, ?_⟩⟩
      · omega
      · show s.servo_state.curr_pos = s.servo_state.dest_pos
        omega
    | succ g =>
      rw [servo_update_seek_back_pred s d hmode (by omega) hP]
      obtain ⟨h1, h2, h3⟩ := ih
        { leds := led_on s.leds (step_backward s.led_active_idx s.leds.ndescs)
          led_active_idx := step_backward s.led_active_idx s.leds.ndescs
          servo_state :=
            { curr_pos := s.servo_state.curr_pos - 1
              dest_pos := s.servo_state.dest_pos
              state := state.IN_PROGRESS } }
        g rfl
        (by show s.servo_state.curr_pos - 1 = s.servo_state.dest_pos + g; omega)
        (by show s.servo_state.curr_pos - 1 < 4294967296; omega)
      refine ⟨h1, fun h => ?_, fun h => ?_⟩
      · obtain ⟨h4, h5⟩ := h2 (by omega)
        refine ⟨h4, ?_⟩
        have h6 : (servo_ticks
            { leds := led_on s.leds (step_backward s.led_active_idx s.leds.ndescs)
              led_active_idx := step_backward s.led_active_idx s.leds.ndescs
              servo_state :=
                { curr_pos := s.servo_state.curr_pos - 1
                  dest_pos := s.servo_state.dest_pos
                  state := state.IN_PROGRESS } } ds).servo_state.curr_pos + ds.length
            = s.servo_state.curr_pos - 1 := h5
        omega
      · exact h3 (by omega)

/-- C3: from IN_PROGRESS with curr_pos = P and dest_pos = D (both `unsigned`),
after k ticks with k ≤ |D - P| curr_pos is P + k when D ≥ P and P - k when
D < P, it differs from D while k < |D - P|, and it equals D after |D - P|
ticks and after every larger number of ticks. -/
theorem seek_moves_one_unit_per_tick (s : servo) (ds : List Bool) (P D : Nat)
    (hP : P < 4294967296) (hD : D < 4294967296)
    (hmode : s.servo_state.state = state.IN_PROGRESS)
    (hcur : s.servo_state.curr_pos = P) (hdst : s.servo_state.dest_pos = D) :
    (ds.length ≤ ((D : Int) - (P : Int)).natAbs → P ≤ D →
        (servo_ticks s ds).servo_state.curr_pos = P + ds.length)
    ∧ (ds.length ≤ ((D : Int) - (P : Int)).natAbs → D < P →
        (servo_ticks s ds).servo_state.curr_pos = P - ds.length)
    ∧ (ds.length < ((D : Int) - (P : Int)).natAbs →
        (servo_ticks s ds).servo_state.curr_pos ≠ D)
    ∧ (((D : Int) - (P : Int)).natAbs ≤ ds.length →
        (servo_ticks s ds).servo_state.curr_pos = D) := by
  rcases Nat.lt_or_ge D P with hlt | hge
  · obtain ⟨_, h2, h3⟩ := servo_ticks_seek_back ds s (P - D) hmode (by omega) (by omega)
    refine ⟨fun _ h => ?_, fun hk _ => ?_, fun hk => ?_, fun hk => ?_⟩
    · omega
    · have h := (h2 (by omega)).2
      omega
    · have h := (h2 (by omega)).2
      omega
    · rcases Nat.lt_or_ge (P - D) ds.length with h | h
      · rw [(h3 h).2, hdst]
      · have h4 := (h2 h).2
        omega
  · obtain ⟨_, h2, h3⟩ := servo_ticks_seek_forth ds s (D - P) hmode (by omega) (by omega)
    refine ⟨fun hk _ => ?_, fun _ h => ?_, fun hk => ?_, fun hk => ?_⟩
    · have h := (h2 (by omega)).2
      omega
    · omega
    · have h := (h2 (by omega)).2
      omega
    · rcases Nat.lt_or_ge (D - P) ds.length with h | h
      · rw [(h3 h).2, hdst]
      · have h4 := (h2 h).2
        omega

/-- Instance of C3: a seek from 5 down to 2 is at 5 - 2 = 3 after 2 ticks,
which is not yet the destination. -/
theorem seek_moves_one_unit_per_tick_witness :
    (servo_ticks (servo_with 4 1 state.IN_PROGRESS 5 2) [true, false]).servo_state.curr_pos
        = 5 - 2
    ∧ (servo_ticks (servo_with 4 1 state.IN_PROGRESS 5 2) [true, false]).servo_state.curr_pos
        ≠ 2 :=
  ⟨(seek_moves_one_unit_per_tick (servo_with 4 1 state.IN_PROGRESS 5 2) [true, false] 5 2
      (by decide) (by decide) rfl rfl rfl).2.1 (by decide) (by decide),
   (seek_moves_one_unit_per_tick (servo_with 4 1 state.IN_PROGRESS 5 2) [true, false] 5 2
      (by decide) (by decide) rfl rfl rfl).2.2.1 (by decide)⟩

/-- C4, as the claim states it, fails: a seek from 0 to 2 is not in mode IDLE
after exactly |2 - 0| = 2 ticks; the position is 2 but the mode is still
IN_PROGRESS. -/
theorem seek_not_idle_after_distance_ticks :
    ¬ ((servo_ticks (servo_with 4 0 state.IN_PROGRESS 0 2) [false, false]).servo_state.state
          = state.IDLE
        ∧ (servo_ticks (servo_with 4 0 state.IN_PROGRESS 0 2) [false, false]).servo_state.curr_pos
          = 2) := by
  decide

/-- C4 (amended): from IN_PROGRESS with curr_pos = P and dest_pos = D (both
`unsigned`), the mode is IDLE with curr_pos = D after exactly |D - P| + 1
ticks, and after any smaller number of ticks the mode is IN_PROGRESS, so not
IDLE: the tick that finds curr_pos equal to dest_pos is the one that sets
IDLE. -/
theorem seek_idle_one_tick_after_arrival (s : servo) (ds : List Bool) (P D : Nat)
    (hP : P < 4294967296) (hD : D < 4294967296)
    (hmode : s.servo_state.state = state.IN_PROGRESS)
    (hcur : s.servo_state.curr_pos = P) (hdst : s.servo_state.dest_pos = D) :
    (ds.length = ((D : Int) - (P : Int)).natAbs + 1 →
        (servo_ticks s ds).servo_state.state = state.IDLE
        ∧ (servo_ticks s ds).servo_state.curr_pos = D)
    ∧ (ds.length < ((D : Int) - (P : Int)).natAbs + 1 →
        (servo_ticks s ds).servo_state.state = state.IN_PROGRESS
        ∧ (servo_ticks s ds).servo_state.state ≠ state.IDLE) := by
  rcases Nat.lt_or_ge D P with hlt | hge
  · obtain ⟨_, h2, h3⟩ := servo_ticks_seek_back ds s (P - D) hmode (by omega) (by omega)
    refine ⟨fun hk => ?_, fun hk => ?_⟩
    · obtain ⟨h4, h5⟩ := h3 (by omega)
      exact ⟨h4, by rw [h5, hdst]⟩
    · have h4 := (h2 (by omega)).1
      exact ⟨h4, by rw [h4]; decide⟩
  · obtain ⟨_, h2, h3⟩ := servo_ticks_seek_forth ds s (D - P) hmode (by omega) (by omega)
    refine ⟨fun hk => ?_, fun hk => ?_⟩
    · obtain ⟨h4, h5⟩ := h3 (by omega)
      exact ⟨h4, by rw [h5, hdst]⟩
    · have h4 := (h2 (by omega)).1
      exact ⟨h4, by rw [h4]; decide⟩

/-- Instance of C4 (amended): a seek from 0 to 2 is IDLE at position 2 after
3 ticks. -/
theorem seek_idle_one_tick_after_arrival_witness :
    (servo_ticks (servo_with 4 0 state.IN_PROGRESS 0 2) [false, true, false]).servo_state.state
        = state.IDLE
    ∧ (servo_ticks (servo_with 4 0 state.IN_PROGRESS 0 2)
        [false, true, false]).servo_state.curr_pos = 2 :=
  (seek_idle_one_tick_after_arrival (servo_with 4 0 state.IN_PROGRESS 0 2) [false, true, false]
    0 2 (by decide) (by decide) rfl rfl rfl).1 (by decide)

/-! ## Destination write -/

/-- A payload of at most 10 bytes that `kstrtol` accepts, written while the
mode is CALLIB or IN_PROGRESS, changes nothing and returns its length. -/
theorem servo_write_handler_busy (s : servo) (data : List Char) (v : Int)
    (hlen : data.length ≤ 10) (hparse : kstrtol (data ++ [NUL]) = Except.ok v)
    (hmode : s.servo_state.state = state.CALLIB ∨ s.servo_state.state = state.IN_PROGRESS) :
    servo_write_handler s data = ((data.length : Int), s) := by
  unfold servo_write_handler
  have h10 : ¬ data.length > 10 := by omega
  have hss : to_ssize data.length = (data.length : Int) := to_ssize_of_lt _ (by omega)
  simp only [h10, if_false, hparse, hss]
  rcases hmode with h | h <;> simp [h]

/-- A payload of at most 10 bytes that `kstrtol` accepts, written while the
mode is IDLE, stores the value converted to `unsigned` as destination, sets
IN_PROGRESS and returns its length. -/
theorem servo_write_handler_idle (s : servo) (data : List Char) (v : Int)
    (hlen : data.length ≤ 10) (hparse : kstrtol (data ++ [NUL]) = Except.ok v)
    (hmode : s.servo_state.state = state.IDLE) :
    servo_write_handler s data =
      ((data.length : Int),
        { s with servo_state :=
            { curr_pos := s.servo_state.curr_pos
              dest_pos := to_unsigned v
              state := state.IN_PROGRESS } }) := by
  unfold servo_write_handler
  have h10 : ¬ data.length > 10 := by omega
  have hss : to_ssize data.length = (data.length : Int) := to_ssize_of_lt _ (by omega)
  simp only [h10, if_false, hparse, hss]
  simp [hmode]

/-- A payload of at most 10 bytes that `kstrtol` rejects changes nothing and
returns `-EINVAL`. -/
theorem servo_write_handler_reject (s : servo) (data : List Char) (e : Int)
    (hlen : data.length ≤ 10) (hparse : kstrtol (data ++ [NUL]) = Except.error e) :
    servo_write_handler s data = (-EINVAL, s) := by
  unfold servo_write_handler
  have h10 : ¬ data.length > 10 := by omega
  simp only [h10, if_false, hparse]

/-- A payload of more than 10 bytes changes nothing and returns `-EMSGSIZE`. -/
theorem servo_write_handler_too_long (s : servo) (data : List Char)
    (hlen : data.length > 10) :
    servo_write_handler s data = (-EMSGSIZE, s) := by
  unfold servo_write_handler
  simp only [hlen, if_true]

/-- C5: a payload of at most 10 bytes that parses as a base-10 integer,
written while the mode is CALLIB or IN_PROGRESS, leaves the whole device
state unchanged (dest_pos, mode, curr_pos, led_active_idx and the coils),
and returns the payload length, the same value a write of this payload
returns in IDLE. -/
theorem write_while_busy_changes_nothing (s s2 : servo) (data : List Char) (v : Int)
    (hlen : data.length ≤ 10) (hparse : kstrtol (data ++ [NUL]) = Except.ok v)
    (hmode : s.servo_state.state = state.CALLIB ∨ s.servo_state.state = state.IN_PROGRESS)
    (hidle : s2.servo_state.state = state.IDLE) :
    (servo_write_handler s data).2 = s
    ∧ (servo_write_handler s data).1 = (data.length : Int)
    ∧ (servo_write_handler s2 data).1 = (servo_write_handler s data).1 := by
  rw [servo_write_handler_busy s data v hlen hparse hmode,
    servo_write_handler_idle s2 data v hlen hparse hidle]
  exact ⟨rfl, rfl, rfl⟩

/-- Instance of C5: writing "7" during calibration. -/
theorem write_while_busy_changes_nothing_witness :
    (servo_write_handler (servo_with 4 2 state.CALLIB 3 3) ['7']).2
        = servo_with 4 2 state.CALLIB 3 3
    ∧ (servo_write_handler (servo_with 4 2 state.CALLIB 3 3) ['7']).1
        = ((['7'] : List Char).length : Int)
    ∧ (servo_write_handler (servo_with 4 2 state.IDLE 3 3) ['7']).1
        = (servo_write_handler (servo_with 4 2 state.CALLIB 3 3) ['7']).1 :=
  write_while_busy_changes_nothing (servo_with 4 2 state.CALLIB 3 3)
    (servo_with 4 2 state.IDLE 3 3) ['7'] 7 (by decide) rfl (Or.inl rfl) rfl

/-- C6: a payload of at most 10 bytes that parses as a base-10 integer v with
0 ≤ v < 2^32, written while the mode is IDLE, sets dest_pos to v and the mode
to IN_PROGRESS, leaves curr_pos, led_active_idx and the coils unchanged, and
returns the payload length. -/
theorem write_in_idle_starts_seek (s : servo) (data : List Char) (v : Int)
    (hlen : data.length ≤ 10) (hparse : kstrtol (data ++ [NUL]) = Except.ok v)
    (hv0 : 0 ≤ v) (hv32 : v < 4294967296)
    (hmode : s.servo_state.state = state.IDLE) :
    ((servo_write_handler s data).2.servo_state.dest_pos : Int) = v
    ∧ (servo_write_handler s data).2.servo_state.state = state.IN_PROGRESS
    ∧ (servo_write_handler s data).2.servo_state.curr_pos = s.servo_state.curr_pos
    ∧ (servo_write_handler s data).2.led_active_idx = s.led_active_idx
    ∧ (servo_write_handler s data).2.leds = s.leds
    ∧ (servo_write_handler s data).1 = (data.length : Int) := by
  rw [servo_write_handler_idle s data v hlen hparse hmode]
  refine ⟨?_, rfl, rfl, rfl, rfl, rfl⟩
  show ((to_unsigned v : Nat) : Int) = v
  unfold to_unsigned
  omega

/-- Instance of C6: writing "5" in IDLE. -/
theorem write_in_idle_starts_seek_witness :
    ((servo_write_handler (servo_with 4 2 state.IDLE 0 0) ['5']).2.servo_state.dest_pos : Int) = 5
    ∧ (servo_write_handler (servo_with 4 2 state.IDLE 0 0) ['5']).2.servo_state.state
        = state.IN_PROGRESS
    ∧ (servo_write_handler (servo_with 4 2 state.IDLE 0 0) ['5']).2.servo_state.curr_pos
        = (servo_with 4 2 state.IDLE 0 0).servo_state.curr_pos
    ∧ (servo_write_handler (servo_with 4 2 state.IDLE 0 0) ['5']).2.led_active_idx
        = (servo_with 4 2 state.IDLE 0 0).led_active_idx
    ∧ (servo_write_handler (servo_with 4 2 state.IDLE 0 0) ['5']).2.leds
        = (servo_with 4 2 state.IDLE 0 0).leds
    ∧ (servo_write_handler (servo_with 4 2 state.IDLE 0 0) ['5']).1
        = ((['5'] : List Char).length : Int) :=
  write_in_idle_starts_seek (servo_with 4 2 state.IDLE 0 0) ['5'] 5 (by decide) rfl
    (by decide) (by decide) rfl

/-- C7: `servo_write_handler` returns `-EMSGSIZE` exactly when the payload is
longer than 10 bytes, whatever the payload holds, and in that case the device
state is unchanged. -/
theorem write_too_long_iff_emsgsize (s : servo) (data : List Char) :
    ((servo_write_handler s data).1 = -EMSGSIZE ↔ data.length > 10)
    ∧ (data.length > 10 → (servo_write_handler s data).2 = s) := by
  rcases Nat.lt_or_ge 10 data.length with hlong | hshort
  · rw [servo_write_handler_too_long s data hlong]
    exact ⟨⟨fun _ => hlong, fun _ => rfl⟩, fun _ => rfl⟩
  · refine ⟨⟨fun h => ?_, fun h => ?_⟩, fun h => ?_⟩
    · exfalso
      cases hparse : kstrtol (data ++ [NUL]) with
      | error e =>
        rw [servo_write_handler_reject s data e hshort hparse] at h
        have h2 : -EINVAL = -EMSGSIZE := h
        revert h2
        decide
      | ok v =>
        cases hmode : s.servo_state.state with
        | IDLE =>
          rw [servo_write_handler_idle s data v hshort hparse hmode] at h
          have h2 : (data.length : Int) = -EMSGSIZE := h
          unfold EMSGSIZE at h2
          omega
        | CALLIB =>
          rw [servo_write_handler_busy s data v hshort hparse (Or.inl hmode)] at h
          have h2 : (data.length : Int) = -EMSGSIZE := h
          unfold EMSGSIZE at h2
          omega
        | IN_PROGRESS =>
          rw [servo_write_handler_busy s data v hshort hparse (Or.inr hmode)] at h
          have h2 : (data.length : Int) = -EMSGSIZE := h
          unfold EMSGSIZE at h2
          omega
    · omega
    · omega

/-- Instance of C7: an 11-byte payload of digits, written in IDLE. -/
theorem write_too_long_iff_emsgsize_witness :
    (servo_write_handler (servo_with 4 2 state.IDLE 0 0) "12345678901".toList).1 = -EMSGSIZE
    ∧ (servo_write_handler (servo_with 4 2 state.IDLE 0 0) "12345678901".toList).2
        = servo_with 4 2 state.IDLE 0 0 :=
  ⟨(write_too_long_iff_emsgsize (servo_with 4 2 state.IDLE 0 0) "12345678901".toList).1.2
      (by decide),
   (write_too_long_iff_emsgsize (servo_with 4 2 state.IDLE 0 0) "12345678901".toList).2
      (by decide)⟩

/-- C8: a payload of at most 10 bytes that `kstrtol` (base 10) does not
accept makes `servo_write_handler` return `-EINVAL` and leaves the whole
device state unchanged, in every mode. -/
theorem write_unparsable_is_einval (s : servo) (data : List Char) (e : Int)
    (hlen : data.length ≤ 10) (hparse : kstrtol (data ++ [NUL]) = Except.error e) :
    (servo_write_handler s data).1 = -EINVAL
    ∧ (servo_write_handler s data).2 = s := by
  rw [servo_write_handler_reject s data e hlen hparse]
  exact ⟨rfl, rfl⟩

/-- Instance of C8: writing "abc" in IDLE. -/
theorem write_unparsable_is_einval_witness :
    (servo_write_handler (servo_with 4 2 state.IDLE 1 1) "abc".toList).1 = -EINVAL
    ∧ (servo_write_handler (servo_with 4 2 state.IDLE 1 1) "abc".toList).2
        = servo_with 4 2 state.IDLE 1 1 :=
  write_unparsable_is_einval (servo_with 4 2 state.IDLE 1 1) "abc".toList (-EINVAL)
    (by decide) rfl

/-! ## Position read and calibration request -/

/-- C9 (code defect): for curr_pos = 100000000 the text "100000000\n" has 10
bytes, but `snprintf` with size 10 stores 9 of them and a NUL, so the 10 bytes
`servo_read_handler` delivers end in NUL where the newline should be.  For
curr_pos = 1000000000 the return value is 11, more than the 10-byte buffer
holds, and for curr_pos = 4294967295 the `%d` conversion delivers "-1\n". -/
theorem read_handler_truncates_and_reads_signed :
    (∀ stack : Nat → Char,
      (servo_read_handler (servo_with 4 0 state.IDLE 100000000 100000000) stack).1 = 10
      ∧ (servo_read_handler (servo_with 4 0 state.IDLE 100000000 100000000) stack).2.1
          = "100000000".toList ++ [NUL]
      ∧ (servo_read_handler (servo_with 4 0 state.IDLE 100000000 100000000) stack).2.1
          ≠ "100000000\n".toList)
    ∧ (∀ stack : Nat → Char,
      (servo_read_handler (servo_with 4 0 state.IDLE 1000000000 1000000000) stack).1 = 11)
    ∧ (∀ stack : Nat → Char,
      (servo_read_handler (servo_with 4 0 state.IDLE 4294967295 4294967295) stack).2.1
          = "-1\n".toList) := by
  refine ⟨fun stack => ⟨?_, ?_, ?_⟩, fun stack => ?_, fun stack => ?_⟩
  · rfl
  · rfl
  · have h : (servo_read_handler (servo_with 4 0 state.IDLE 100000000 100000000) stack).2.1
        = "100000000".toList ++ [NUL] := rfl
    rw [h]
    decide
  · rfl
  · rfl

theorem servo_callib_store_idle (s : servo) (count : Nat)
    (h : s.servo_state.state = state.IDLE) :
    servo_callib_store s count =
      (to_ssize count,
        { s with servo_state :=
            { curr_pos := s.servo_state.curr_pos
              dest_pos := s.servo_state.dest_pos
              state := state.CALLIB } }) := by
  unfold servo_callib_store
  rw [if_pos h]

theorem servo_callib_store_busy (s : servo) (count : Nat)
    (h : ¬ s.servo_state.state = state.IDLE) :
    servo_callib_store s count = (to_ssize count, s) := by
  unfold servo_callib_store
  rw [if_neg h]

/-- C10: `servo_callib_store` moves the mode from IDLE to CALLIB and changes
the mode in no other case; from CALLIB or IN_PROGRESS the whole device state
is unchanged; curr_pos, dest_pos, led_active_idx and the coils are never
changed, and the return value is `count` (as `ssize_t`, which is `count`
itself for every length below 2^63). -/
theorem callib_store_only_from_idle (s : servo) (count : Nat) :
    (s.servo_state.state = state.IDLE →
        (servo_callib_store s count).2.servo_state.state = state.CALLIB)
    ∧ ((servo_callib_store s count).2.servo_state.state ≠ s.servo_state.state
        ↔ s.servo_state.state = state.IDLE)
    ∧ (s.servo_state.state = state.CALLIB ∨ s.servo_state.state = state.IN_PROGRESS →
        (servo_callib_store s count).2 = s)
    ∧ (servo_callib_store s count).2.servo_state.curr_pos = s.servo_state.curr_pos
    ∧ (servo_callib_store s count).2.servo_state.dest_pos = s.servo_state.dest_pos
    ∧ (servo_callib_store s count).2.led_active_idx = s.led_active_idx
    ∧ (servo_callib_store s count).2.leds = s.leds
    ∧ (servo_callib_store s count).1 = to_ssize count
    ∧ (count < 9223372036854775808 → (servo_callib_store s count).1 = (count : Int)) := by
  by_cases hmode : s.servo_state.state = state.IDLE
  · rw [servo_callib_store_idle s count hmode]
    refine ⟨fun _ => rfl, ⟨fun _ => hmode, fun _ => ?_⟩, fun h => ?_, rfl, rfl, rfl, rfl,
      rfl, fun h => to_ssize_of_lt count h⟩
    · show state.CALLIB ≠ s.servo_state.state
      rw [hmode]
      decide
    · rcases h with h | h <;> rw [h] at hmode <;> exact absurd hmode (by decide)
  · rw [servo_callib_store_busy s count hmode]
    exact ⟨fun h => absurd h hmode, ⟨fun h => absurd rfl h, fun h => absurd h hmode⟩,
      fun _ => rfl, rfl, rfl, rfl, rfl, rfl, fun h => to_ssize_of_lt count h⟩

/-- Instance of C10: a 2-byte calibration request in IDLE and one during a
seek. -/
theorem callib_store_only_from_idle_witness :
    (servo_callib_store (servo_with 4 1 state.IDLE 6 6) 2).2.servo_state.state = state.CALLIB
    ∧ (servo_callib_store (servo_with 4 1 state.IN_PROGRESS 6 9) 2).2
        = servo_with 4 1 state.IN_PROGRESS 6 9
    ∧ (servo_callib_store (servo_with 4 1 state.IDLE 6 6) 2).1 = ((2 : Nat) : Int) :=
  ⟨(callib_store_only_from_idle (servo_with 4 1 state.IDLE 6 6) 2).1 rfl,
   (callib_store_only_from_idle (servo_with 4 1 state.IN_PROGRESS 6 9) 2).2.2.1 (Or.inr rfl),
   (callib_store_only_from_idle (servo_with 4 1 state.IDLE 6 6) 2).2.2.2.2.2.2.2.2 (by decide)⟩

/-! ## Coil outputs -/

/-- The loop of `led_on` after `k` rounds: the first `k` lines carry the new
pattern, the lines from `k` on still carry their old values. -/
theorem led_on_loop (led_idx : Int) (k : Nat) :
    ∀ (desc : List Nat), k ≤ desc.length →
      (List.range k).foldl
          (fun (desc : List Nat) (leds_ctr : Nat) =>
            if (leds_ctr : Int) = led_idx then desc.set leds_ctr 1 else desc.set leds_ctr 0)
          desc
        = (List.range k).map (fun (i : Nat) => if (i : Int) = led_idx then 1 else 0) ++ desc.drop k := by
  induction k with
  | zero =>
    intro desc _
    simp
  | succ k ih =>
    intro desc hk
    rw [List.range_succ, List.foldl_append, ih desc (by omega), List.map_append]
    have hlen : ((List.range k).map (fun (i : Nat) => if (i : Int) = led_idx then (1 : Nat) else 0)).length
        = k := by simp
    have hdrop : desc.drop k = desc[k] :: desc.drop (k + 1) := List.drop_eq_getElem_cons hk
    simp only [List.foldl_cons, List.foldl_nil, List.map_cons, List.map_nil]
    by_cases h : (k : Int) = led_idx
    · rw [if_pos h, if_pos h, List.set_append_right k 1 (by omega), hlen, Nat.sub_self, hdrop,
        List.set_cons_zero, List.append_assoc]
      rfl
    · rw [if_neg h, if_neg h, List.set_append_right k 0 (by omega), hlen, Nat.sub_self, hdrop,
        List.set_cons_zero, List.append_assoc]
      rfl

/-- An accepted call of `led_on` on an array with all `ndescs` lines present
leaves line `led_idx` at 1 and every other line at 0. -/
theorem led_on_accept (leds : gpio_descs) (led_idx : Int)
    (hlen : leds.desc.length = leds.ndescs)
    (h0 : 0 ≤ led_idx) (h1 : led_idx < leds.ndescs) (h31 : led_idx < 2147483648) :
    led_on leds led_idx =
      { ndescs := leds.ndescs
        desc := (List.range leds.ndescs).map (fun (i : Nat) => if (i : Int) = led_idx then 1 else 0) } := by
  unfold led_on
  have hu : ¬ (led_idx < 0 ∨ to_unsigned led_idx ≥ leds.ndescs) := by
    unfold to_unsigned
    omega
  rw [if_neg hu, led_on_loop led_idx leds.ndescs leds.desc (by omega)]
  have hd : leds.desc.drop leds.ndescs = [] := by
    rw [← hlen]
    exact List.drop_length leds.desc
  rw [hd, List.append_nil]

/-- A call of `led_on` with a negative index, or one at or above `ndescs`,
changes nothing. -/
theorem led_on_reject (leds : gpio_descs) (led_idx : Int)
    (hlo : -2147483648 ≤ led_idx) (hhi : led_idx < 2147483648)
    (h : led_idx < 0 ∨ (leds.ndescs : Int) ≤ led_idx) :
    led_on leds led_idx = leds := by
  unfold led_on
  have hu : led_idx < 0 ∨ to_unsigned led_idx ≥ leds.ndescs := by
    unfold to_unsigned
    omega
  rw [if_pos hu]

/-- Both stepping expressions give an index in `[0, n)` when the coil count
`n` is at least 1 and its indices fit the `int` field. -/
theorem step_forward_range (i : Int) (n : Nat) (hn : 1 ≤ n) (hn31 : n ≤ 2147483648) :
    0 ≤ step_forward i n ∧ step_forward i n < n := by
  unfold step_forward
  have h := Nat.mod_lt (to_unsigned (int_wrap (i + 1))) (show n > 0 by omega)
  rw [to_int_of_lt _ (by omega)]
  omega

theorem step_backward_range (i : Int) (n : Nat) (hn : 1 ≤ n) (hn31 : n ≤ 2147483648) :
    0 ≤ step_backward i n ∧ step_backward i n < n := by
  unfold step_backward
  have h := Nat.mod_lt (to_unsigned (int_wrap (i - 1))) (show n > 0 by omega)
  rw [to_int_of_lt _ (by omega)]
  omega

/-- C15: on a coil vector of length n and for every `int` index led_idx: when
0 ≤ led_idx < n, `led_on` leaves the coil at led_idx at 1 and every other
coil at 0, and a second call with the same index changes nothing more; when
led_idx < 0 or led_idx ≥ n the call changes no coil output. -/
theorem led_on_exclusive_or_rejected (leds : gpio_descs) (led_idx : Int) (n : Nat)
    (hnd : leds.ndescs = n) (hlen : leds.desc.length = n)
    (hlo : -2147483648 ≤ led_idx) (hhi : led_idx < 2147483648) :
    (0 ≤ led_idx → led_idx < n →
        (led_on leds led_idx).ndescs = n
        ∧ (led_on leds led_idx).desc.length = n
        ∧ (∀ i : Nat, i < n →
            (led_on leds led_idx).desc[i]? = some (if (i : Int) = led_idx then 1 else 0))
        ∧ led_on (led_on leds led_idx) led_idx = led_on leds led_idx)
    ∧ (led_idx < 0 ∨ (n : Int) ≤ led_idx → led_on leds led_idx = leds) := by
  refine ⟨fun h0 h1 => ?_, fun h => ?_⟩
  · have hacc := led_on_accept leds led_idx (by rw [hlen, hnd]) h0 (by rw [hnd]; exact h1) hhi
    rw [hnd] at hacc
    have hacc2 := led_on_accept (led_on leds led_idx) led_idx
      (by rw [hacc]; simp) h0 (by rw [hacc]; exact h1) hhi
    refine ⟨by rw [hacc], by rw [hacc]; simp, fun i hi => ?_, ?_⟩
    · rw [hacc]
      simp only [List.getElem?_map, List.getElem?_range hi, Option.map_some']
    · rw [hacc2, hacc]
  · exact led_on_reject leds led_idx hlo hhi (by rw [hnd]; exact h)

/-- Instance of C15: four coils driven 1, 1, 0, 1; index 2 is accepted, index
4 is rejected. -/
theorem led_on_exclusive_or_rejected_witness :
    (led_on { ndescs := 4, desc := [1, 1, 0, 1] } 2).desc[3]? = some 0
    ∧ (led_on { ndescs := 4, desc := [1, 1, 0, 1] } 2).desc[2]? = some 1
    ∧ led_on { ndescs := 4, desc := [1, 1, 0, 1] } 4 = { ndescs := 4, desc := [1, 1, 0, 1] } :=
  ⟨((led_on_exclusive_or_rejected { ndescs := 4, desc := [1, 1, 0, 1] } 2 4 rfl rfl
      (by decide) (by decide)).1 (by decide) (by decide)).2.2.1 3 (by decide),
   ((led_on_exclusive_or_rejected { ndescs := 4, desc := [1, 1, 0, 1] } 2 4 rfl rfl
      (by decide) (by decide)).1 (by decide) (by decide)).2.2.1 2 (by decide),
   (led_on_exclusive_or_rejected { ndescs := 4, desc := [1, 1, 0, 1] } 4 4 rfl rfl
      (by decide) (by decide)).2 (Or.inr (by decide))⟩

/-! ## Events and what they can change -/

theorem servo_run_nil (s : servo) : servo_run s [] = s := rfl

theorem servo_run_cons (s : servo) (op : servo_op) (ops : List servo_op) :
    servo_run s (op :: ops) = servo_run (servo_apply s op) ops := rfl

/-- The write handler never touches the coil index or the coil lines. -/
theorem servo_write_handler_coils (s : servo) (data : List Char) :
    (servo_write_handler s data).2.leds = s.leds
    ∧ (servo_write_handler s data).2.led_active_idx = s.led_active_idx := by
  unfold servo_write_handler
  dsimp only
  split
  · exact ⟨rfl, rfl⟩
  · split
    · exact ⟨rfl, rfl⟩
    · split <;> exact ⟨rfl, rfl⟩

/-- The calibration request never touches the coil index or the coil lines. -/
theorem servo_callib_store_coils (s : servo) (count : Nat) :
    (servo_callib_store s count).2.leds = s.leds
    ∧ (servo_callib_store s count).2.led_active_idx = s.led_active_idx := by
  unfold servo_callib_store
  split <;> exact ⟨rfl, rfl⟩

/-- One tick keeps the coil lines in step with `led_active_idx`: if exactly
the line at the index is driven before the tick, the same holds after it. -/
theorem servo_update_coils (s : servo) (d : Bool) (n : Nat)
    (hn : 1 ≤ n) (hn31 : n ≤ 2147483648)
    (hleds : s.leds =
      { ndescs := n
        desc := (List.range n).map (fun (i : Nat) => if (i : Int) = s.led_active_idx then 1 else 0) })
    (h0 : 0 ≤ s.led_active_idx) (h1 : s.led_active_idx < n) :
    (servo_update s d).leds =
      { ndescs := n
        desc := (List.range n).map
          (fun (i : Nat) => if (i : Int) = (servo_update s d).led_active_idx then 1 else 0) }
    ∧ 0 ≤ (servo_update s d).led_active_idx
    ∧ (servo_update s d).led_active_idx < n := by
  have hnd : s.leds.ndescs = n := by rw [hleds]
  have hlen : s.leds.desc.length = s.leds.ndescs := by rw [hleds]; simp
  have hfw := step_forward_range s.led_active_idx n hn hn31
  have hbw := step_backward_range s.led_active_idx n hn hn31
  have hfwd : led_on s.leds (step_forward s.led_active_idx s.leds.ndescs) =
      { ndescs := n
        desc := (List.range n).map
          (fun (i : Nat) => if (i : Int) = step_forward s.led_active_idx n then 1 else 0) } := by
    rw [led_on_accept s.leds _ hlen (by rw [hnd]; exact hfw.1) (by rw [hnd]; exact hfw.2)
      (by rw [hnd]; omega), hnd]
  have hbwd : led_on s.leds (step_backward s.led_active_idx s.leds.ndescs) =
      { ndescs := n
        desc := (List.range n).map
          (fun (i : Nat) => if (i : Int) = step_backward s.led_active_idx n then 1 else 0) } := by
    rw [led_on_accept s.leds _ hlen (by rw [hnd]; exact hbw.1) (by rw [hnd]; exact hbw.2)
      (by rw [hnd]; omega), hnd]
  cases hmode : s.servo_state.state with
  | IDLE =>
    rw [servo_update_idle s d hmode]
    exact ⟨hleds, h0, h1⟩
  | CALLIB =>
    cases d with
    | true =>
      rw [servo_update_callib_true s hmode]
      refine ⟨?_, ?_, ?_⟩
      · show led_on s.leds (step_forward s.led_active_idx s.leds.ndescs) = _
        rw [hfwd, hnd]
      · show 0 ≤ step_forward s.led_active_idx s.leds.ndescs
        rw [hnd]; exact hfw.1
      · show step_forward s.led_active_idx s.leds.ndescs < n
        rw [hnd]; exact hfw.2
    | false =>
      rw [servo_update_callib_false s hmode]
      exact ⟨hleds, h0, h1⟩
  | IN_PROGRESS =>
    rcases Nat.lt_trichotomy s.servo_state.curr_pos s.servo_state.dest_pos with hlt | heq | hgt
    · rw [servo_update_seek_forth s d hmode hlt]
      refine ⟨?_, ?_, ?_⟩
      · show led_on s.leds (step_forward s.led_active_idx s.leds.ndescs) = _
        rw [hfwd, hnd]
      · show 0 ≤ step_forward s.led_active_idx s.leds.ndescs
        rw [hnd]; exact hfw.1
      · show step_forward s.led_active_idx s.leds.ndescs < n
        rw [hnd]; exact hfw.2
    · rw [servo_update_seek_done s d hmode heq]
      exact ⟨hleds, h0, h1⟩
    · rw [servo_update_seek_back s d hmode hgt]
      refine ⟨?_, ?_, ?_⟩
      · show led_on s.leds (step_backward s.led_active_idx s.leds.ndescs) = _
        rw [hbwd, hnd]
      · show 0 ≤ step_backward s.led_active_idx s.leds.ndescs
        rw [hnd]; exact hbw.1
      · show step_backward s.led_active_idx s.leds.ndescs < n
        rw [hnd]; exact hbw.2

/-- Every event keeps the coil lines in step with `led_active_idx`. -/
theorem servo_apply_coils (s : servo) (op : servo_op) (n : Nat)
    (hn : 1 ≤ n) (hn31 : n ≤ 2147483648)
    (hleds : s.leds =
      { ndescs := n
        desc := (List.range n).map (fun (i : Nat) => if (i : Int) = s.led_active_idx then 1 else 0) })
    (h0 : 0 ≤ s.led_active_idx) (h1 : s.led_active_idx < n) :
    (servo_apply s op).leds =
      { ndescs := n
        desc := (List.range n).map
          (fun (i : Nat) => if (i : Int) = (servo_apply s op).led_active_idx then 1 else 0) }
    ∧ 0 ≤ (servo_apply s op).led_active_idx
    ∧ (servo_apply s op).led_active_idx < n := by
  cases op with
  | tick d => exact servo_update_coils s d n hn hn31 hleds h0 h1
  | write data =>
    obtain ⟨ha, hb⟩ := servo_write_handler_coils s data
    have ha2 : (servo_apply s (servo_op.write data)).leds = s.leds := ha
    have hb2 : (servo_apply s (servo_op.write data)).led_active_idx = s.led_active_idx := hb
    rw [ha2, hb2]
    exact ⟨hleds, h0, h1⟩
  | callib count =>
    obtain ⟨ha, hb⟩ := servo_callib_store_coils s count
    have ha2 : (servo_apply s (servo_op.callib count)).leds = s.leds := ha
    have hb2 : (servo_apply s (servo_op.callib count)).led_active_idx = s.led_active_idx := hb
    rw [ha2, hb2]
    exact ⟨hleds, h0, h1⟩

/-- Any sequence of events keeps the coil lines in step with
`led_active_idx`. -/
theorem servo_run_coils (n : Nat) (hn : 1 ≤ n) (hn31 : n ≤ 2147483648) (ops : List servo_op) :
    ∀ (s : servo),
      s.leds =
        { ndescs := n
          desc := (List.range n).map
            (fun (i : Nat) => if (i : Int) = s.led_active_idx then 1 else 0) } →
      0 ≤ s.led_active_idx → s.led_active_idx < n →
      (servo_run s ops).leds =
        { ndescs := n
          desc := (List.range n).map
            (fun (i : Nat) => if (i : Int) = (servo_run s ops).led_active_idx then 1 else 0) }
      ∧ 0 ≤ (servo_run s ops).led_active_idx
      ∧ (servo_run s ops).led_active_idx < n := by
  induction ops with
  | nil =>
    intro s hleds h0 h1
    exact ⟨hleds, h0, h1⟩
  | cons op ops ih =>
    intro s hleds h0 h1
    rw [servo_run_cons]
    obtain ⟨ha, hb, hc⟩ := servo_apply_coils s op n hn hn31 hleds h0 h1
    exact ih (servo_apply s op) ha hb hc

/-- At the end of `servo_probe` exactly line 0 is driven. -/
theorem servo_probe_coils (n : Nat) (hn : 1 ≤ n) :
    (servo_probe n).leds =
      { ndescs := n
        desc := (List.range n).map (fun (i : Nat) => if (i : Int) = 0 then 1 else 0) } := by
  show led_on { ndescs := n, desc := List.replicate n 0 } 0 = _
  rw [led_on_accept _ 0 (by simp) (by decide) (by show (0 : Int) < (n : Int); omega) (by decide)]

/-- Number of driven lines among the first `k` of a pattern with one line
selected. -/
theorem one_hot_count (idx : Int) (h0 : 0 ≤ idx) (k : Nat) :
    ((List.range k).map (fun (i : Nat) => if (i : Int) = idx then 1 else 0)).count 1
      = if idx < k then 1 else 0 := by
  obtain ⟨m, rfl⟩ := Int.eq_ofNat_of_zero_le h0
  induction k with
  | zero =>
    have h : ¬ ((m : Int) < ((0 : Nat) : Int)) := by omega
    rw [if_neg h]
    rfl
  | succ k ih =>
    rw [List.range_succ, List.map_append, List.count_append, ih]
    simp only [List.map_cons, List.map_nil, Nat.cast_inj, Nat.cast_lt]
    by_cases h : k = m
    · subst h
      simp
    · have h3 : ¬ (0 : Nat) = 1 := by decide
      simp only [if_neg h, List.count_cons, List.count_nil, beq_iff_eq, if_neg h3]
      split_ifs <;> omega

/-- C11: for every coil count n with 1 ≤ n ≤ 2^31 (the counts whose indices
the `int` field led_active_idx can hold), in every state reached from the
state at the end of `servo_probe` by any sequence of ticks (any detector
values), destination writes and calibration requests, led_active_idx lies in
[0, n), the coil at led_active_idx is 1, every other coil is 0, and so exactly
one of the n coil outputs is 1. -/
theorem one_coil_on_in_every_reachable_state (n : Nat) (ops : List servo_op)
    (hn : 1 ≤ n) (hn31 : n ≤ 2147483648) :
    0 ≤ (servo_run (servo_probe n) ops).led_active_idx
    ∧ (servo_run (servo_probe n) ops).led_active_idx < n
    ∧ (servo_run (servo_probe n) ops).leds.ndescs = n
    ∧ (servo_run (servo_probe n) ops).leds.desc.length = n
    ∧ (∀ i : Nat, i < n →
        (servo_run (servo_probe n) ops).leds.desc[i]?
          = some (if (i : Int) = (servo_run (servo_probe n) ops).led_active_idx then 1 else 0))
    ∧ (servo_run (servo_probe n) ops).leds.desc.count 1 = 1 := by
  obtain ⟨hleds, h0, h1⟩ := servo_run_coils n hn hn31 ops (servo_probe n)
    (servo_probe_coils n hn) (le_refl 0) (by show (0 : Int) < (n : Int); omega)
  refine ⟨h0, h1, by rw [hleds], by rw [hleds]; simp, fun i hi => ?_, ?_⟩
  · rw [hleds]
    simp only [List.getElem?_map, List.getElem?_range hi, Option.map_some']
  · rw [hleds]
    show ((List.range n).map (fun (i : Nat) =>
        if (i : Int) = (servo_run (servo_probe n) ops).led_active_idx then 1 else 0)).count 1 = 1
    rw [one_hot_count _ h0 n, if_pos h1]

/-- Instance of C11: three coils; calibration, a seek to 3 and a seek back to
2 with a calibration request in between. -/
theorem one_coil_on_in_every_reachable_state_witness :
    (servo_run (servo_probe 3)
        [servo_op.tick true, servo_op.tick false, servo_op.write ['3'], servo_op.tick false,
         servo_op.tick true, servo_op.tick false, servo_op.tick false, servo_op.callib 1,
         servo_op.write ['2'], servo_op.tick false, servo_op.write ['2'],
         servo_op.tick false]).leds.desc.count 1 = 1 :=
  (one_coil_on_in_every_reachable_state 3
    [servo_op.tick true, servo_op.tick false, servo_op.write ['3'], servo_op.tick false,
     servo_op.tick true, servo_op.tick false, servo_op.tick false, servo_op.callib 1,
     servo_op.write ['2'], servo_op.tick false, servo_op.write ['2'],
     servo_op.tick false] (by decide) (by decide)).2.2.2.2.2

/-- The write handler changes the position record only in mode IDLE, where it
sets the destination and the mode IN_PROGRESS; the current position is never
changed. -/
theorem servo_write_handler_cases (s : servo) (data : List Char) :
    (servo_write_handler s data).2 = s
    ∨ (s.servo_state.state = state.IDLE
        ∧ (servo_write_handler s data).2.servo_state.state = state.IN_PROGRESS
        ∧ (servo_write_handler s data).2.servo_state.curr_pos = s.servo_state.curr_pos) := by
  rcases Nat.lt_or_ge 10 data.length with hlong | hshort
  · rw [servo_write_handler_too_long s data hlong]
    exact Or.inl rfl
  · cases hparse : kstrtol (data ++ [NUL]) with
    | error e =>
      rw [servo_write_handler_reject s data e hshort hparse]
      exact Or.inl rfl
    | ok v =>
      cases hmode : s.servo_state.state with
      | IDLE =>
        rw [servo_write_handler_idle s data v hshort hparse hmode]
        exact Or.inr ⟨rfl, rfl, rfl⟩
      | CALLIB =>
        rw [servo_write_handler_busy s data v hshort hparse (Or.inl hmode)]
        exact Or.inl rfl
      | IN_PROGRESS =>
        rw [servo_write_handler_busy s data v hshort hparse (Or.inr hmode)]
        exact Or.inl rfl

/-- The calibration request never changes the positions. -/
theorem servo_callib_store_positions (s : servo) (count : Nat) :
    (servo_callib_store s count).2.servo_state.curr_pos = s.servo_state.curr_pos
    ∧ (servo_callib_store s count).2.servo_state.dest_pos = s.servo_state.dest_pos := by
  unfold servo_callib_store
  split <;> exact ⟨rfl, rfl⟩

/-- A tick in mode IN_PROGRESS keeps the destination. -/
theorem servo_update_seek_dest_pos (s : servo) (d : Bool)
    (h : s.servo_state.state = state.IN_PROGRESS) :
    (servo_update s d).servo_state.dest_pos = s.servo_state.dest_pos := by
  rcases Nat.lt_trichotomy s.servo_state.curr_pos s.servo_state.dest_pos with hlt | heq | hgt
  · obtain ⟨c, hc⟩ : ∃ c, servo_update s d =
        { leds := led_on s.leds (step_forward s.led_active_idx s.leds.ndescs)
          led_active_idx := step_forward s.led_active_idx s.leds.ndescs
          servo_state :=
            { curr_pos := c, dest_pos := s.servo_state.dest_pos, state := state.IN_PROGRESS } } :=
      ⟨_, servo_update_seek_forth s d h hlt⟩
    rw [hc]
  · rw [servo_update_seek_done s d h heq]
  · obtain ⟨c, hc⟩ : ∃ c, servo_update s d =
        { leds := led_on s.leds (step_backward s.led_active_idx s.leds.ndescs)
          led_active_idx := step_backward s.led_active_idx s.leds.ndescs
          servo_state :=
            { curr_pos := c, dest_pos := s.servo_state.dest_pos, state := state.IN_PROGRESS } } :=
      ⟨_, servo_update_seek_back s d h hgt⟩
    rw [hc]

/-- C12, as the claim states it, fails: a tick in mode CALLIB with the
detector reading false changes dest_pos from 5 to 0, although the mode before
it is CALLIB (not IDLE) and the mode after it is IDLE (not IN_PROGRESS). -/
theorem calibration_end_changes_dest_pos :
    ¬ ((servo_apply (servo_with 4 0 state.CALLIB 5 5) (servo_op.tick false)).servo_state.dest_pos
          ≠ (servo_with 4 0 state.CALLIB 5 5).servo_state.dest_pos →
        (servo_with 4 0 state.CALLIB 5 5).servo_state.state = state.IDLE
        ∧ (servo_apply (servo_with 4 0 state.CALLIB 5 5) (servo_op.tick false)).servo_state.state
            = state.IN_PROGRESS) := by
  decide

/-- C12 (amended): if an event changes dest_pos, then either it is a write,
the mode before it is IDLE and the mode after it is IN_PROGRESS, or it is a
tick in mode CALLIB with the detector reading false, after which the mode is
IDLE and dest_pos is 0. -/
theorem dest_pos_changes_by_idle_write_or_calibration_end (s : servo) (op : servo_op)
    (hchg : (servo_apply s op).servo_state.dest_pos ≠ s.servo_state.dest_pos) :
    ((∃ data, op = servo_op.write data)
        ∧ s.servo_state.state = state.IDLE
        ∧ (servo_apply s op).servo_state.state = state.IN_PROGRESS)
    ∨ (op = servo_op.tick false
        ∧ s.servo_state.state = state.CALLIB
        ∧ (servo_apply s op).servo_state.state = state.IDLE
        ∧ (servo_apply s op).servo_state.dest_pos = 0) := by
  cases op with
  | tick d =>
    have hchg2 : (servo_update s d).servo_state.dest_pos ≠ s.servo_state.dest_pos := hchg
    show _ ∨ (servo_op.tick d = servo_op.tick false ∧ s.servo_state.state = state.CALLIB
      ∧ (servo_update s d).servo_state.state = state.IDLE
      ∧ (servo_update s d).servo_state.dest_pos = 0)
    cases hmode : s.servo_state.state with
    | IDLE =>
      rw [servo_update_idle s d hmode] at hchg2
      exact absurd rfl hchg2
    | CALLIB =>
      cases d with
      | true =>
        rw [servo_update_callib_true s hmode] at hchg2
        exact absurd rfl hchg2
      | false =>
        rw [servo_update_callib_false s hmode]
        exact Or.inr ⟨rfl, rfl, rfl, rfl⟩
    | IN_PROGRESS =>
      exact absurd (servo_update_seek_dest_pos s d hmode) hchg2
  | write data =>
    have hchg2 : (servo_write_handler s data).2.servo_state.dest_pos ≠ s.servo_state.dest_pos :=
      hchg
    rcases servo_write_handler_cases s data with hsame | ⟨hidle, hseek, _⟩
    · rw [hsame] at hchg2
      exact absurd rfl hchg2
    · exact Or.inl ⟨⟨data, rfl⟩, hidle, hseek⟩
  | callib count =>
    exact absurd (servo_callib_store_positions s count).2 hchg

/-- Instance of C12 (amended): writing "7" in IDLE with dest_pos 2. -/
theorem dest_pos_changes_by_idle_write_or_calibration_end_witness :
    ((∃ data, servo_op.write ['7'] = servo_op.write data)
        ∧ (servo_with 4 1 state.IDLE 2 2).servo_state.state = state.IDLE
        ∧ (servo_apply (servo_with 4 1 state.IDLE 2 2) (servo_op.write ['7'])).servo_state.state
            = state.IN_PROGRESS)
    ∨ (servo_op.write ['7'] = servo_op.tick false
        ∧ (servo_with 4 1 state.IDLE 2 2).servo_state.state = state.CALLIB
        ∧ (servo_apply (servo_with 4 1 state.IDLE 2 2) (servo_op.write ['7'])).servo_state.state
            = state.IDLE
        ∧ (servo_apply (servo_with 4 1 state.IDLE 2 2) (servo_op.write ['7'])).servo_state.dest_pos
            = 0) :=
  dest_pos_changes_by_idle_write_or_calibration_end (servo_with 4 1 state.IDLE 2 2)
    (servo_op.write ['7']) (by decide)

/-- C13, as the claim states it, fails: a tick in mode CALLIB with the
detector reading false changes curr_pos from 5 to 0, although the mode before
it is CALLIB, not IN_PROGRESS, and the change is 5 units. -/
theorem calibration_end_changes_curr_pos :
    ¬ ((servo_apply (servo_with 4 0 state.CALLIB 5 5) (servo_op.tick false)).servo_state.curr_pos
          ≠ (servo_with 4 0 state.CALLIB 5 5).servo_state.curr_pos →
        (servo_with 4 0 state.CALLIB 5 5).servo_state.state = state.IN_PROGRESS
        ∧ ((servo_apply (servo_with 4 0 state.CALLIB 5 5)
              (servo_op.tick false)).servo_state.curr_pos
            = (servo_with 4 0 state.CALLIB 5 5).servo_state.curr_pos + 1
          ∨ (servo_apply (servo_with 4 0 state.CALLIB 5 5)
              (servo_op.tick false)).servo_state.curr_pos + 1
            = (servo_with 4 0 state.CALLIB 5 5).servo_state.curr_pos)) := by
  decide

/-- C13 (amended): if an event changes curr_pos (positions being `unsigned`
values), then the event is a tick, and either the mode before it is
IN_PROGRESS and curr_pos has moved by exactly one unit, up or down, or the
mode before it is CALLIB, the detector reads false, and curr_pos is 0 after
it. -/
theorem curr_pos_changes_by_seek_tick_or_calibration_end (s : servo) (op : servo_op)
    (hcur : s.servo_state.curr_pos < 4294967296) (hdst : s.servo_state.dest_pos < 4294967296)
    (hchg : (servo_apply s op).servo_state.curr_pos ≠ s.servo_state.curr_pos) :
    ∃ d, op = servo_op.tick d
      ∧ ((s.servo_state.state = state.IN_PROGRESS
            ∧ ((servo_apply s op).servo_state.curr_pos = s.servo_state.curr_pos + 1
              ∨ (servo_apply s op).servo_state.curr_pos + 1 = s.servo_state.curr_pos))
        ∨ (s.servo_state.state = state.CALLIB ∧ d = false
            ∧ (servo_apply s op).servo_state.curr_pos = 0)) := by
  cases op with
  | tick d =>
    refine ⟨d, rfl, ?_⟩
    have hchg2 : (servo_update s d).servo_state.curr_pos ≠ s.servo_state.curr_pos := hchg
    show (s.servo_state.state = state.IN_PROGRESS
            ∧ ((servo_update s d).servo_state.curr_pos = s.servo_state.curr_pos + 1
              ∨ (servo_update s d).servo_state.curr_pos + 1 = s.servo_state.curr_pos))
        ∨ (s.servo_state.state = state.CALLIB ∧ d = false
            ∧ (servo_update s d).servo_state.curr_pos = 0)
    cases hmode : s.servo_state.state with
    | IDLE =>
      rw [servo_update_idle s d hmode] at hchg2
      exact absurd rfl hchg2
    | CALLIB =>
      cases d with
      | true =>
        rw [servo_update_callib_true s hmode] at hchg2
        exact absurd rfl hchg2
      | false =>
        rw [servo_update_callib_false s hmode]
        exact Or.inr ⟨rfl, rfl, rfl⟩
    | IN_PROGRESS =>
      rcases Nat.lt_trichotomy s.servo_state.curr_pos s.servo_state.dest_pos with hlt | heq | hgt
      · rw [servo_update_seek_forth_succ s d hmode hlt hdst]
        exact Or.inl ⟨rfl, Or.inl rfl⟩
      · rw [servo_update_seek_done s d hmode heq] at hchg2
        exact absurd rfl hchg2
      · rw [servo_update_seek_back_pred s d hmode hgt hcur]
        refine Or.inl ⟨rfl, Or.inr ?_⟩
        show s.servo_state.curr_pos - 1 + 1 = s.servo_state.curr_pos
        omega
  | write data =>
    exfalso
    have hchg2 : (servo_write_handler s data).2.servo_state.curr_pos ≠ s.servo_state.curr_pos :=
      hchg
    rcases servo_write_handler_cases s data with hsame | ⟨_, _, hkeep⟩
    · rw [hsame] at hchg2
      exact hchg2 rfl
    · exact hchg2 hkeep
  | callib count =>
    exact absurd (servo_callib_store_positions s count).1 hchg

/-- Instance of C13 (amended): a tick of a seek from 3 toward 9. -/
theorem curr_pos_changes_by_seek_tick_or_calibration_end_witness :
    ∃ d, servo_op.tick true = servo_op.tick d
      ∧ (((servo_with 4 1 state.IN_PROGRESS 3 9).servo_state.state = state.IN_PROGRESS
            ∧ ((servo_apply (servo_with 4 1 state.IN_PROGRESS 3 9)
                  (servo_op.tick true)).servo_state.curr_pos
                = (servo_with 4 1 state.IN_PROGRESS 3 9).servo_state.curr_pos + 1
              ∨ (servo_apply (servo_with 4 1 state.IN_PROGRESS 3 9)
                  (servo_op.tick true)).servo_state.curr_pos + 1
                = (servo_with 4 1 state.IN_PROGRESS 3 9).servo_state.curr_pos))
        ∨ ((servo_with 4 1 state.IN_PROGRESS 3 9).servo_state.state = state.CALLIB ∧ d = false
            ∧ (servo_apply (servo_with 4 1 state.IN_PROGRESS 3 9)
                (servo_op.tick true)).servo_state.curr_pos = 0)) :=
  curr_pos_changes_by_seek_tick_or_calibration_end (servo_with 4 1 state.IN_PROGRESS 3 9)
    (servo_op.tick true) (by decide) (by decide) (by decide)

/-! ## When a tick steps the coils -/

/-- The `led_on` calls of a tick, and what the tick does to the coil index
and the coil lines, branch by branch of `servo_update`. -/
theorem servo_update_led_on_calls_cases (s : servo) (d : Bool) :
    ((servo_update_led_on_calls s d = [step_forward s.led_active_idx s.leds.ndescs]
        ∧ (servo_update s d).led_active_idx = step_forward s.led_active_idx s.leds.ndescs
        ∧ (servo_update s d).leds
            = led_on s.leds (step_forward s.led_active_idx s.leds.ndescs))
      ∨ (servo_update_led_on_calls s d = [step_backward s.led_active_idx s.leds.ndescs]
        ∧ (servo_update s d).led_active_idx = step_backward s.led_active_idx s.leds.ndescs
        ∧ (servo_update s d).leds
            = led_on s.leds (step_backward s.led_active_idx s.leds.ndescs)))
      ∧ ((s.servo_state.state = state.CALLIB ∧ d = true)
        ∨ (s.servo_state.state = state.IN_PROGRESS
            ∧ s.servo_state.curr_pos ≠ s.servo_state.dest_pos))
    ∨ (servo_update_led_on_calls s d = []
        ∧ (servo_update s d).led_active_idx = s.led_active_idx
        ∧ (servo_update s d).leds = s.leds)
      ∧ ¬ ((s.servo_state.state = state.CALLIB ∧ d = true)
        ∨ (s.servo_state.state = state.IN_PROGRESS
            ∧ s.servo_state.curr_pos ≠ s.servo_state.dest_pos)) := by
  cases hmode : s.servo_state.state with
  | IDLE =>
    refine Or.inr ⟨⟨?_, ?_, ?_⟩, ?_⟩
    · unfold servo_update_led_on_calls
      rw [hmode]
    · rw [servo_update_idle s d hmode]
    · rw [servo_update_idle s d hmode]
    · rintro (⟨h, _⟩ | ⟨h, _⟩) <;> exact absurd h (by decide)
  | CALLIB =>
    cases d with
    | true =>
      refine Or.inl ⟨Or.inl ⟨?_, ?_, ?_⟩, Or.inl ⟨rfl, rfl⟩⟩
      · unfold servo_update_led_on_calls
        rw [hmode]
        rfl
      · rw [servo_update_callib_true s hmode]
      · rw [servo_update_callib_true s hmode]
    | false =>
      refine Or.inr ⟨⟨?_, ?_, ?_⟩, ?_⟩
      · unfold servo_update_led_on_calls
        rw [hmode]
        rfl
      · rw [servo_update_callib_false s hmode]
      · rw [servo_update_callib_false s hmode]
      · rintro (⟨_, h⟩ | ⟨h, _⟩) <;> exact absurd h (by decide)
  | IN_PROGRESS =>
    rcases Nat.lt_trichotomy s.servo_state.curr_pos s.servo_state.dest_pos with hlt | heq | hgt
    · obtain ⟨c, hc⟩ : ∃ c, servo_update s d =
          { leds := led_on s.leds (step_forward s.led_active_idx s.leds.ndescs)
            led_active_idx := step_forward s.led_active_idx s.leds.ndescs
            servo_state :=
              { curr_pos := c, dest_pos := s.servo_state.dest_pos, state := state.IN_PROGRESS } } :=
        ⟨_, servo_update_seek_forth s d hmode hlt⟩
      refine Or.inl ⟨Or.inl ⟨?_, ?_, ?_⟩, Or.inr ⟨rfl, by omega⟩⟩
      · unfold servo_update_led_on_calls
        rw [hmode]
        have hng : ¬ s.servo_state.curr_pos > s.servo_state.dest_pos := by omega
        simp only [hng, hlt, if_true, if_false]
      · rw [hc]
      · rw [hc]
    · refine Or.inr ⟨⟨?_, ?_, ?_⟩, ?_⟩
      · unfold servo_update_led_on_calls
        rw [hmode]
        have hng : ¬ s.servo_state.curr_pos > s.servo_state.dest_pos := by omega
        have hnl : ¬ s.servo_state.curr_pos < s.servo_state.dest_pos := by omega
        simp only [hng, hnl, if_false]
      · rw [servo_update_seek_done s d hmode heq]
      · rw [servo_update_seek_done s d hmode heq]
      · rintro (⟨h, _⟩ | ⟨_, h⟩)
        · exact absurd h (by decide)
        · exact h heq
    · obtain ⟨c, hc⟩ : ∃ c, servo_update s d =
          { leds := led_on s.leds (step_backward s.led_active_idx s.leds.ndescs)
            led_active_idx := step_backward s.led_active_idx s.leds.ndescs
            servo_state :=
              { curr_pos := c, dest_pos := s.servo_state.dest_pos, state := state.IN_PROGRESS } } :=
        ⟨_, servo_update_seek_back s d hmode hgt⟩
      refine Or.inl ⟨Or.inr ⟨?_, ?_, ?_⟩, Or.inr ⟨rfl, by omega⟩⟩
      · unfold servo_update_led_on_calls
        rw [hmode]
        simp only [hgt, if_true]
      · rw [hc]
      · rw [hc]

/-- C17: a tick calls `led_on` (once, with the freshly stepped
led_active_idx) exactly when the mode is CALLIB and the detector reads true,
or the mode is IN_PROGRESS and curr_pos differs from dest_pos.  On every
other tick there is no call and led_active_idx and all coil outputs are
unchanged; an IDLE tick leaves the whole state unchanged and an IN_PROGRESS
tick with curr_pos = dest_pos changes only the mode, to IDLE. -/
theorem tick_steps_coils_exactly_when_moving (s : servo) (d : Bool) :
    ((servo_update_led_on_calls s d).length = 1 ↔
        ((s.servo_state.state = state.CALLIB ∧ d = true)
          ∨ (s.servo_state.state = state.IN_PROGRESS
              ∧ s.servo_state.curr_pos ≠ s.servo_state.dest_pos)))
    ∧ (((s.servo_state.state = state.CALLIB ∧ d = true)
          ∨ (s.servo_state.state = state.IN_PROGRESS
              ∧ s.servo_state.curr_pos ≠ s.servo_state.dest_pos)) →
        ∃ x, servo_update_led_on_calls s d = [x]
          ∧ (x = step_forward s.led_active_idx s.leds.ndescs
              ∨ x = step_backward s.led_active_idx s.leds.ndescs)
          ∧ (servo_update s d).led_active_idx = x
          ∧ (servo_update s d).leds = led_on s.leds x)
    ∧ (¬ ((s.servo_state.state = state.CALLIB ∧ d = true)
          ∨ (s.servo_state.state = state.IN_PROGRESS
              ∧ s.servo_state.curr_pos ≠ s.servo_state.dest_pos)) →
        servo_update_led_on_calls s d = []
          ∧ (servo_update s d).led_active_idx = s.led_active_idx
          ∧ (servo_update s d).leds = s.leds)
    ∧ (s.servo_state.state = state.IDLE → servo_update s d = s)
    ∧ (s.servo_state.state = state.IN_PROGRESS →
        s.servo_state.curr_pos = s.servo_state.dest_pos →
        servo_update s d =
          { leds := s.leds
            led_active_idx := s.led_active_idx
            servo_state :=
              { curr_pos := s.servo_state.curr_pos
                dest_pos := s.servo_state.dest_pos
                state := state.IDLE } }) := by
  refine ⟨?_, ?_, ?_, fun h => servo_update_idle s d h,
    fun h heq => servo_update_seek_done s d h heq⟩
  · rcases servo_update_led_on_calls_cases s d with ⟨hcalls, hcond⟩ | ⟨⟨hcalls, _, _⟩, hcond⟩
    · rcases hcalls with ⟨h, _, _⟩ | ⟨h, _, _⟩ <;> rw [h] <;> exact ⟨fun _ => hcond, fun _ => rfl⟩
    · rw [hcalls]
      exact ⟨fun h => absurd h (by decide), fun h => absurd h hcond⟩
  · intro hcond
    rcases servo_update_led_on_calls_cases s d with ⟨hcalls, _⟩ | ⟨_, hncond⟩
    · rcases hcalls with ⟨h1, h2, h3⟩ | ⟨h1, h2, h3⟩
      · exact ⟨_, h1, Or.inl rfl, h2, h3⟩
      · exact ⟨_, h1, Or.inr rfl, h2, h3⟩
    · exact absurd hcond hncond
  · intro hncond
    rcases servo_update_led_on_calls_cases s d with ⟨_, hcond⟩ | ⟨hcalls, _⟩
    · exact absurd hcond hncond
    · exact hcalls

/-- Instance of C17: a forward tick of a seek calls `led_on` once; the tick
that finds the position at the destination calls nothing and only sets
IDLE. -/
theorem tick_steps_coils_exactly_when_moving_witness :
    (servo_update_led_on_calls (servo_with 4 1 state.IN_PROGRESS 3 9) false).length = 1
    ∧ servo_update (servo_with 4 1 state.IN_PROGRESS 9 9) false
        = servo_with 4 1 state.IDLE 9 9 :=
  ⟨(tick_steps_coils_exactly_when_moving (servo_with 4 1 state.IN_PROGRESS 3 9) false).1.2
      (Or.inr ⟨rfl, by decide⟩),
   (tick_steps_coils_exactly_when_moving (servo_with 4 1 state.IN_PROGRESS 9 9) false).2.2.2.2
      rfl rfl⟩

/-! ## Buffer indices and the stored destination -/

/-- C18 (code defect): for data_len = 10, which passes the size check, the
stores of `servo_write_handler` into the 10-element `private_buffer` include
index 10 (the terminating NUL), which is outside [0, 9]; for data_len = 9 all
stores are inside. -/
theorem write_terminator_past_buffer_at_ten :
    ¬ (10 > 10)
    ∧ servo_write_handler_stores 10 = [0, 1, 2, 3, 4, 5, 6, 7, 8, 9, 10]
    ∧ 10 ∈ servo_write_handler_stores 10
    ∧ ¬ (∀ i, i ∈ servo_write_handler_stores 10 → i ≤ 9)
    ∧ (∀ i, i ∈ servo_write_handler_stores 9 → i ≤ 9) := by
  decide

/-- C19: a payload of at most 10 bytes that parses as the 64-bit signed
integer v, written in mode IDLE, leaves dest_pos = v mod 2^32, so dest_pos
equals v exactly when 0 ≤ v < 2^32. -/
theorem write_stores_value_mod_two_pow_32 (s : servo) (data : List Char) (v : Int)
    (hlen : data.length ≤ 10) (hparse : kstrtol (data ++ [NUL]) = Except.ok v)
    (hmode : s.servo_state.state = state.IDLE) :
    ((servo_write_handler s data).2.servo_state.dest_pos : Int) = v % 4294967296
    ∧ (((servo_write_handler s data).2.servo_state.dest_pos : Int) = v
        ↔ (0 ≤ v ∧ v < 4294967296)) := by
  rw [servo_write_handler_idle s data v hlen hparse hmode]
  have h : ((to_unsigned v : Nat) : Int) = v % 4294967296 := by
    unfold to_unsigned
    omega
  refine ⟨h, ?_⟩
  show ((to_unsigned v : Nat) : Int) = v ↔ _
  rw [h]
  omega

/-- Instance of C19: "-1" stores 4294967295 and "9999999999" stores
1410065407. -/
theorem write_stores_value_mod_two_pow_32_witness :
    ((servo_write_handler (servo_with 4 0 state.IDLE 0 0) "-1".toList).2.servo_state.dest_pos : Int)
        = 4294967295
    ∧ ((servo_write_handler (servo_with 4 0 state.IDLE 0 0)
          "9999999999".toList).2.servo_state.dest_pos : Int) = 1410065407 :=
  ⟨(write_stores_value_mod_two_pow_32 (servo_with 4 0 state.IDLE 0 0) "-1".toList (-1)
      (by decide) rfl rfl).1,
   (write_stores_value_mod_two_pow_32 (servo_with 4 0 state.IDLE 0 0) "9999999999".toList
      9999999999 (by decide) rfl rfl).1⟩

/-- Coil index during a forward seek of `g` units: every tick that moves the
position moves the index one coil forward, and the ticks after arrival leave
it alone. -/
theorem servo_ticks_seek_forth_idx (n : Nat) (hn32 : n < 4294967296) (ds : List Bool) :
    ∀ (s : servo) (g c : Nat), s.servo_state.state = state.IN_PROGRESS →
      s.servo_state.dest_pos = s.servo_state.curr_pos + g →
      s.servo_state.dest_pos < 4294967296 →
      s.leds.ndescs = n → c < n → s.led_active_idx = to_int c →
      (servo_ticks s ds).led_active_idx = to_int ((c + min ds.length g) % n) := by
  induction ds with
  | nil =>
    intro s g c _ _ _ _ hc hidx
    rw [servo_ticks_nil, hidx]
    have h : (c + min ([] : List Bool).length g) % n = c := by
      rw [List.length_nil, Nat.zero_min, Nat.add_zero, Nat.mod_eq_of_lt hc]
    rw [h]
  | cons d ds ih =>
    intro s g c hmode hgap hD hnd hc hidx
    rw [servo_ticks_cons, List.length_cons]
    cases g with
    | zero =>
      rw [servo_update_seek_done s d hmode (by omega), servo_ticks_idle _ ds rfl]
      have h : (c + min (ds.length + 1) 0) % n = c := by
        rw [Nat.min_zero, Nat.add_zero, Nat.mod_eq_of_lt hc]
      rw [h]
      exact hidx
    | succ g =>
      rw [servo_update_seek_forth_succ s d hmode (by omega) hD]
      have hstep : step_forward s.led_active_idx s.leds.ndescs = to_int ((c + 1) % n) := by
        rw [hidx, hnd]
        exact step_forward_to_int c n hc hn32
      have hlt : (c + 1) % n < n := Nat.mod_lt _ (by omega)
      have h := ih
        { leds := led_on s.leds (step_forward s.led_active_idx s.leds.ndescs)
          led_active_idx := step_forward s.led_active_idx s.leds.ndescs
          servo_state :=
            { curr_pos := s.servo_state.curr_pos + 1
              dest_pos := s.servo_state.dest_pos
              state := state.IN_PROGRESS } }
        g ((c + 1) % n) rfl
        (by show s.servo_state.dest_pos = s.servo_state.curr_pos + 1 + g; omega)
        hD (by rw [led_on_ndescs]; exact hnd) hlt hstep
      rw [h]
      congr 1
      rw [Nat.mod_add_mod]
      congr 1
      omega

/-! ## End-to-end scenario -/

/-- C14, as the claim states it, fails: with 4 coils and the detector reading
true, true, false, the mode after 2 ticks is not IDLE (calibration ends on
the third tick), and 5 ticks after "5" is written the mode is not IDLE
either (the position is 5, the mode is still IN_PROGRESS). -/
theorem scenario_not_idle_after_two_and_five_ticks :
    ¬ ((servo_ticks (servo_with 4 0 state.CALLIB 0 0) [true, true]).servo_state.state
        = state.IDLE)
    ∧ ¬ ((servo_ticks
          (servo_write_handler (servo_ticks (servo_with 4 0 state.CALLIB 0 0) [true, true, false])
            ['5']).2
          (List.replicate 5 false)).servo_state.state = state.IDLE) := by
  decide

/-- C14 (amended): with 4 coils, from mode CALLIB with led_active_idx = c and
the detector reading true, true and then false: the mode is CALLIB after 2
ticks and IDLE with curr_pos = 0 after 3; writing "5" then sets IN_PROGRESS
with dest_pos = 5; after 5 further ticks curr_pos = 5 with the mode still
IN_PROGRESS, after the 6th the mode is IDLE with curr_pos = 5, and in both
led_active_idx is one position (5 mod 4) ahead, modulo 4, of its value at
the end of calibration. -/
theorem scenario_four_coils (s : servo) (c : Nat) (hc : c < 4)
    (hnd : s.leds.ndescs = 4) (hidx : s.led_active_idx = (c : Int))
    (hmode : s.servo_state.state = state.CALLIB) :
    (servo_ticks s [true, true]).servo_state.state = state.CALLIB
    ∧ (servo_ticks s [true, true, false]).servo_state.state = state.IDLE
    ∧ (servo_ticks s [true, true, false]).servo_state.curr_pos = 0
    ∧ (servo_write_handler (servo_ticks s [true, true, false]) ['5']).2.servo_state.state
        = state.IN_PROGRESS
    ∧ (servo_write_handler (servo_ticks s [true, true, false]) ['5']).2.servo_state.dest_pos = 5
    ∧ (servo_ticks (servo_write_handler (servo_ticks s [true, true, false]) ['5']).2
        (List.replicate 5 false)).servo_state.curr_pos = 5
    ∧ (servo_ticks (servo_write_handler (servo_ticks s [true, true, false]) ['5']).2
        (List.replicate 5 false)).servo_state.state = state.IN_PROGRESS
    ∧ (servo_ticks (servo_write_handler (servo_ticks s [true, true, false]) ['5']).2
        (List.replicate 6 false)).servo_state.state = state.IDLE
    ∧ (servo_ticks (servo_write_handler (servo_ticks s [true, true, false]) ['5']).2
        (List.replicate 6 false)).servo_state.curr_pos = 5
    ∧ (servo_ticks (servo_write_handler (servo_ticks s [true, true, false]) ['5']).2
        (List.replicate 5 false)).led_active_idx
        = ((servo_ticks s [true, true, false]).led_active_idx + 1) % 4
    ∧ (servo_ticks (servo_write_handler (servo_ticks s [true, true, false]) ['5']).2
        (List.replicate 6 false)).led_active_idx
        = ((servo_ticks s [true, true, false]).led_active_idx + 1) % 4 := by
  have hidx2 : s.led_active_idx = to_int c := by
    rw [hidx, to_int_of_lt c (by omega)]
  obtain ⟨hst, hnd2, hi2⟩ := servo_ticks_callib 4 (by decide) 2 s c hc hnd hidx2 hmode
  have hs2 : servo_ticks s (List.replicate 2 true) = servo_ticks s [true, true] := rfl
  rw [hs2] at hst hnd2 hi2
  have hs3 : servo_ticks s [true, true, false]
      = servo_update (servo_ticks s [true, true]) false :=
    servo_ticks_append s [true, true] [false]
  rw [hs3]
  generalize servo_ticks s [true, true] = s2 at hst hnd2 hi2 ⊢
  have hmode2 : s2.servo_state.state = state.CALLIB := by rw [hst]; exact hmode
  rw [servo_update_callib_false s2 hmode2]
  have hw : servo_write_handler
      { leds := s2.leds
        led_active_idx := s2.led_active_idx
        servo_state := { curr_pos := 0, dest_pos := 0, state := state.IDLE } } ['5']
      = (((['5'] : List Char).length : Int),
          { leds := s2.leds
            led_active_idx := s2.led_active_idx
            servo_state := { curr_pos := 0, dest_pos := 5, state := state.IN_PROGRESS } }) :=
    servo_write_handler_idle
      { leds := s2.leds
        led_active_idx := s2.led_active_idx
        servo_state := { curr_pos := 0, dest_pos := 0, state := state.IDLE } }
      ['5'] 5 (by decide) rfl rfl
  rw [hw]
  have hlt : (c + 2) % 4 < 4 := Nat.mod_lt _ (by decide)
  have hseek := fun ds => servo_ticks_seek_forth ds
    { leds := s2.leds
      led_active_idx := s2.led_active_idx
      servo_state := { curr_pos := 0, dest_pos := 5, state := state.IN_PROGRESS } }
    5 rfl rfl (by show (5 : Nat) < 4294967296; decide)
  have hidxs := fun ds => servo_ticks_seek_forth_idx 4 (by decide) ds
    { leds := s2.leds
      led_active_idx := s2.led_active_idx
      servo_state := { curr_pos := 0, dest_pos := 5, state := state.IN_PROGRESS } }
    5 ((c + 2) % 4) rfl rfl (by show (5 : Nat) < 4294967296; decide) hnd2 hlt hi2
  obtain ⟨_, h5, _⟩ := hseek (List.replicate 5 false)
  obtain ⟨_, _, h6⟩ := hseek (List.replicate 6 false)
  obtain ⟨h5a, h5b⟩ := h5 (by decide)
  obtain ⟨h6a, h6b⟩ := h6 (by decide)
  have hi5 := hidxs (List.replicate 5 false)
  have hi6 := hidxs (List.replicate 6 false)
  dsimp only
  dsimp only at h5b h6b
  rw [List.length_replicate] at h5b
  refine ⟨hmode2, rfl, rfl, rfl, rfl, ?_, h5a, h6a, h6b, ?_, ?_⟩
  · rw [h5b]
  · rw [hi5, hi2]
    interval_cases c <;> decide
  · rw [hi6, hi2]
    interval_cases c <;> decide

/-- Instance of C14 (amended): start index 3; IDLE after the third tick and
again after the sixth tick of the seek to 5, with the index one coil past its
value at the end of calibration. -/
theorem scenario_four_coils_witness :
    (servo_ticks (servo_with 4 3 state.CALLIB 7 9) [true, true, false]).servo_state.state
        = state.IDLE
    ∧ (servo_ticks
        (servo_write_handler (servo_ticks (servo_with 4 3 state.CALLIB 7 9) [true, true, false])
          ['5']).2
        (List.replicate 6 false)).servo_state.state = state.IDLE
    ∧ (servo_ticks
        (servo_write_handler (servo_ticks (servo_with 4 3 state.CALLIB 7 9) [true, true, false])
          ['5']).2
        (List.replicate 6 false)).led_active_idx
        = ((servo_ticks (servo_with 4 3 state.CALLIB 7 9) [true, true, false]).led_active_idx + 1)
            % 4 :=
  ⟨(scenario_four_coils (servo_with 4 3 state.CALLIB 7 9) 3 (by decide) rfl rfl rfl).2.1,
   (scenario_four_coils (servo_with 4 3 state.CALLIB 7 9) 3
      (by decide) rfl rfl rfl).2.2.2.2.2.2.2.1,
   (scenario_four_coils (servo_with 4 3 state.CALLIB 7 9) 3
      (by decide) rfl rfl rfl).2.2.2.2.2.2.2.2.2.2⟩

/-! ## Coil index against the logical position -/

/-- C20 (code defect): with 3 coils, calibration completes at led_active_idx
c0 = 2 with curr_pos = 0.  After a seek to 1 (index 0, as (2 + 1) mod 3) and a
seek back to 0, curr_pos is 0 but led_active_idx is still 0, where
(c0 + curr_pos) mod 3 = 2: the backward step from index 0 takes the remainder
of the `unsigned` wrap of -1. -/
theorem coil_index_loses_position_on_backward_seek :
    (servo_run (servo_with 3 2 state.CALLIB 0 0) [servo_op.tick false]).led_active_idx = 2
    ∧ (servo_run (servo_with 3 2 state.CALLIB 0 0) [servo_op.tick false]).servo_state
        = { curr_pos := 0, dest_pos := 0, state := state.IDLE }
    ∧ (servo_run (servo_with 3 2 state.CALLIB 0 0)
        [servo_op.tick false, servo_op.write ['1'], servo_op.tick false]).servo_state.curr_pos = 1
    ∧ (servo_run (servo_with 3 2 state.CALLIB 0 0)
        [servo_op.tick false, servo_op.write ['1'], servo_op.tick false]).led_active_idx = 0
    ∧ (servo_run (servo_with 3 2 state.CALLIB 0 0)
        [servo_op.tick false, servo_op.write ['1'], servo_op.tick false, servo_op.tick false,
         servo_op.write ['0'], servo_op.tick false]).servo_state.curr_pos = 0
    ∧ (servo_run (servo_with 3 2 state.CALLIB 0 0)
        [servo_op.tick false, servo_op.write ['1'], servo_op.tick false, servo_op.tick false,
         servo_op.write ['0'], servo_op.tick false]).led_active_idx = 0
    ∧ (((2 : Nat) + 0) % 3 : Nat) = 2 := by
  decide

end Servo
